import Mathlib

/-!
Shallow embedding of the Medieval RTS simulation core (files src/constants.py,
src/entities.py, src/game.py, src/ai.py) used to check the specification
claims about resources, combat, the simulation tick and the AI engine.

Modelling conventions, used throughout and referenced from the doc comments:

* Python floats are modelled as exact rationals.  Every numeric float literal
  of the source (0.3, 0.6, 0.7, 0.8, 1.2, ...) is taken at its decimal value.
* math.sqrt is modelled by sqrtQ below, which is exact whenever the radicand
  is the square of a rational (all concrete configurations in this file are
  chosen so that the distances involved are exact integers).  General
  theorems never depend on the value sqrtQ returns, only on the code
  structure around it.
* Python object references between entities (unit.target_unit,
  unit.assigned_building, ...) are modelled as optional integer uids, as the
  design notes of the specification themselves suggest; two live entities are
  identical in Python iff their uids are equal here (the game allocates a
  fresh uid to every entity it creates).
* random.uniform / random.random draws are passed in as explicit rational
  parameters (or functions from uids/indices to rationals) so that theorems
  quantify over them.
* Python int() truncates toward zero; Int.fdiv models the floor division
  operator of Python on integers.  Where the truncated quantity is provably
  nonnegative the embedding uses Int.floor and the doc comment says so.
* Mutating methods are modelled as functions returning the updated value;
  a Python method returning a success bool while mutating in place is
  modelled as an Option of the updated value.
-/

namespace RTS

/-- Fuel-driven integer square root by binary search (kernel reducible). -/
def isqrtAux (n : Nat) : Nat → Nat → Nat → Nat
  | 0, lo, _ => lo
  | fuel+1, lo, hi =>
    let mid := (lo + hi) / 2
    if mid = lo then lo
    else if mid * mid ≤ n then isqrtAux n fuel mid hi else isqrtAux n fuel lo mid

/-- Integer square root: greatest k with k * k ≤ n (for the fuel given,
which covers every magnitude appearing in the game). -/
def isqrt (n : Nat) : Nat := isqrtAux n 64 0 (n + 1)

/-- Model of math.sqrt on nonnegative rationals: exact whenever the argument
is the square of a rational (sqrt (a / b) = sqrt (a * b) / b). -/
def sqrtQ (q : ℚ) : ℚ := (isqrt (q.num.toNat * q.den) : ℚ) / (q.den : ℚ)

/-- Python int() applied to a float: truncation toward zero. -/
def qtrunc (q : ℚ) : Int := q.num.tdiv (q.den : Int)

/-- Python round(): round half to even (banker's rounding). -/
def pyround (q : ℚ) : Int :=
  if q - Int.floor q = 1/2 then
    (if Even (Int.floor q) then Int.floor q else Int.floor q + 1)
  else Int.floor (q + 1/2)

/-- constants.py Team enum. -/
inductive Team where
  | PLAYER
  | ENEMY
deriving DecidableEq, Repr

/-- constants.py UnitType enum. -/
inductive UnitType where
  | PEASANT
  | KNIGHT
  | CAVALRY
  | CANNON
deriving DecidableEq, Repr

/-- constants.py BuildingType enum. -/
inductive BuildingType where
  | HOUSE
  | CASTLE
  | FARM
  | TOWER
  | BARRICADE
deriving DecidableEq, Repr

/-- Entry of constants.py UNIT_STATS. -/
structure UnitStats where
  health : Int
  attack : Int
  defense : Int
  speed : ℚ
  range : ℚ
  cooldown : ℚ
deriving DecidableEq, Repr

/-- constants.py UNIT_STATS table. -/
def UNIT_STATS : UnitType → UnitStats
  | UnitType.PEASANT => ⟨50, 5, 2, 5/2, 20, 1⟩
  | UnitType.KNIGHT => ⟨150, 20, 15, 9/5, 35, 6/5⟩
  | UnitType.CAVALRY => ⟨120, 25, 10, 4, 40, 4/5⟩
  | UnitType.CANNON => ⟨80, 50, 5, 1, 200, 3⟩

/-- constants.py BUILDING_STATS table (health only). -/
def BUILDING_STATS : BuildingType → Int
  | BuildingType.HOUSE => 300
  | BuildingType.CASTLE => 2000
  | BuildingType.FARM => 200
  | BuildingType.TOWER => 500
  | BuildingType.BARRICADE => 1500

/-- A cost or yield over the three resources; absent dict keys of the Python
cost dicts are modelled as 0 (dict.get default). -/
structure Cost where
  gold : Int := 0
  food : Int := 0
  wood : Int := 0
deriving DecidableEq, Repr

/-- constants.py UNIT_COSTS table. -/
def UNIT_COSTS : UnitType → Cost
  | UnitType.PEASANT => { gold := 50, food := 25 }
  | UnitType.KNIGHT => { gold := 150, food := 50 }
  | UnitType.CAVALRY => { gold := 200, food := 75 }
  | UnitType.CANNON => { gold := 300, food := 0, wood := 100 }

/-- constants.py BUILDING_COSTS table. -/
def BUILDING_COSTS : BuildingType → Cost
  | BuildingType.HOUSE => { gold := 100, wood := 50 }
  | BuildingType.CASTLE => { gold := 500, wood := 200 }
  | BuildingType.FARM => { gold := 75, wood := 25 }
  | BuildingType.TOWER => { gold := 200, wood := 100 }
  | BuildingType.BARRICADE => { gold := 50, wood := 150 }

/-- constants.py BUILD_TIMES (seconds) for buildings. -/
def BUILD_TIMES : BuildingType → ℚ
  | BuildingType.HOUSE => 10
  | BuildingType.FARM => 8
  | BuildingType.CASTLE => 30
  | BuildingType.TOWER => 15
  | BuildingType.BARRICADE => 10

/-- Entry of constants.py BUILDING_RESOURCE_GENERATION. -/
structure GenData where
  gold : Int
  food : Int
  wood : Int
  max_workers : Nat
deriving DecidableEq, Repr

/-- constants.py BUILDING_RESOURCE_GENERATION table. -/
def BUILDING_RESOURCE_GENERATION : BuildingType → GenData
  | BuildingType.HOUSE => ⟨20, 0, 0, 2⟩
  | BuildingType.FARM => ⟨0, 25, 5, 3⟩
  | BuildingType.CASTLE => ⟨10, 5, 5, 1⟩
  | BuildingType.TOWER => ⟨0, 0, 0, 2⟩
  | BuildingType.BARRICADE => ⟨0, 0, 0, 1⟩

/-- constants.py tower combat stats. -/
def TOWER_ATTACK : Int := 60
/-- Tower range (constants.py TOWER_STATS). -/
def TOWER_RANGE : ℚ := 250
/-- Tower cooldown in seconds (constants.py TOWER_STATS). -/
def TOWER_COOLDOWN : ℚ := 2
/-- Tower hit chance 0.7 (constants.py TOWER_STATS). -/
def TOWER_HIT_CHANCE : ℚ := 7/10

/-- constants.py WORKER_RANGE. -/
def WORKER_RANGE : ℚ := 80
/-- constants.py RESOURCE_TICK_INTERVAL. -/
def RESOURCE_TICK_INTERVAL : ℚ := 5
/-- constants.py FOOD_CONSUMPTION_INTERVAL. -/
def FOOD_CONSUMPTION_INTERVAL : ℚ := 10
/-- constants.py FOOD_PER_UNIT. -/
def FOOD_PER_UNIT : Int := 2
/-- constants.py STARVATION_DAMAGE. -/
def STARVATION_DAMAGE : Int := 5
/-- constants.py MAP_WIDTH. -/
def MAP_WIDTH : ℚ := 2000
/-- constants.py MAP_HEIGHT. -/
def MAP_HEIGHT : ℚ := 2000

/-- constants.py Difficulty enum. -/
inductive Difficulty where
  | EASY
  | NORMAL
  | HARD
  | BRUTAL
deriving DecidableEq, Repr

/-- entities.py Resources dataclass (per-faction stocks). -/
structure Resources where
  gold : Int := 500
  food : Int := 200
  wood : Int := 300
deriving DecidableEq, Repr

/-- entities.py Resources.can_afford. -/
def Resources.can_afford (r : Resources) (c : Cost) : Bool :=
  decide (c.gold ≤ r.gold) && decide (c.food ≤ r.food) && decide (c.wood ≤ r.wood)

/-- entities.py Resources.spend: mutates only when affordable and returns a
success bool; modelled as an Option of the updated stocks (none = the
Python method returned False and left the stocks untouched). -/
def Resources.spend (r : Resources) (c : Cost) : Option Resources :=
  if r.can_afford c then
    some { gold := r.gold - c.gold, food := r.food - c.food, wood := r.wood - c.wood }
  else
    none

/-- entities.py Resources.add. -/
def Resources.addRes (r : Resources) (g f w : Int) : Resources :=
  { gold := r.gold + g, food := r.food + f, wood := r.wood + w }

/-- entities.py Unit dataclass.  Object references to other entities are
modelled as optional uids (see the conventions above); the UI-only field
selected is kept on the Game record as the selected_units uid list. -/
structure Unit where
  uid : Nat
  x : ℚ
  y : ℚ
  unit_type : UnitType
  team : Team
  health : Int
  max_health : Int
  attack : Int
  defense : Int
  speed : ℚ
  attack_range : ℚ
  attack_cooldown : ℚ
  last_attack : ℚ := 0
  target_x : Option ℚ := none
  target_y : Option ℚ := none
  target_unit : Option Nat := none
  target_building : Option Nat := none
  attack_move_target : Option (ℚ × ℚ) := none
  assigned_building : Option Nat := none
  is_working : Bool := false
  constructing_building : Option Nat := none
deriving DecidableEq, Repr

/-- Unit construction: the dataclass constructor followed by __post_init__,
which applies the UNIT_STATS entry for the type (no mod overrides). -/
def mkUnit (x y : ℚ) (t : UnitType) (tm : Team) (uid : Nat) : Unit :=
  let s := UNIT_STATS t
  { uid := uid, x := x, y := y, unit_type := t, team := tm,
    health := s.health, max_health := s.health, attack := s.attack,
    defense := s.defense, speed := s.speed, attack_range := s.range,
    attack_cooldown := s.cooldown }

/-- entities.py Unit.get_size (48 for cavalry, else 40). -/
def Unit.get_size (u : Unit) : Int :=
  if u.unit_type = UnitType.CAVALRY then 48 else 40

/-- entities.py Unit.get_collision_radius. -/
def Unit.get_collision_radius (u : Unit) : ℚ :=
  if u.unit_type = UnitType.CAVALRY then 20
  else if u.unit_type = UnitType.CANNON then 18
  else if u.unit_type = UnitType.KNIGHT then 16
  else 14

/-- entities.py Unit.distance_to (math.sqrt modelled by sqrtQ). -/
def Unit.distance_to (u : Unit) (ox oy : ℚ) : ℚ :=
  sqrtQ ((u.x - ox) ^ 2 + (u.y - oy) ^ 2)

/-- entities.py Unit.distance_to_unit. -/
def Unit.distance_to_unit (u o : Unit) : ℚ := u.distance_to o.x o.y

/-- entities.py Unit.move_towards: straight-line step scaled by speed,
the speed multiplier, dt and the 60 fps time-scale, clamped to map bounds;
within distance 5 of the destination the move target is cleared instead. -/
def Unit.move_towards (u : Unit) (tx ty dt mult : ℚ) : Unit :=
  let dist := u.distance_to tx ty
  if 5 < dist then
    let dx := (tx - u.x) / dist
    let dy := (ty - u.y) / dist
    let eff := u.speed * mult
    let nx := u.x + dx * eff * dt * 60
    let ny := u.y + dy * eff * dt * 60
    { u with x := max 20 (min (MAP_WIDTH - 20) nx),
             y := max 20 (min (MAP_HEIGHT - 20) ny) }
  else
    { u with target_x := none, target_y := none }

/-- entities.py Unit.set_move_target. -/
def Unit.set_move_target (u : Unit) (x y : ℚ) : Unit :=
  { u with target_x := some x, target_y := some y,
           target_unit := none, target_building := none }

/-- entities.py Unit.set_attack_target (argument passed as the target unit
record; its uid is stored). -/
def Unit.set_attack_target (u : Unit) (t : Unit) : Unit :=
  { u with target_unit := some t.uid, target_building := none,
           target_x := some t.x, target_y := some t.y }

/-- entities.py Building dataclass (dataclass defaults completed = True and
build_progress = 100 included). -/
structure Building where
  uid : Nat
  x : ℚ
  y : ℚ
  building_type : BuildingType
  team : Team
  health : Int
  max_health : Int
  completed : Bool := true
  build_progress : ℚ := 100
  last_attack : ℚ := 0
deriving DecidableEq, Repr

/-- Building construction: the dataclass constructor followed by
__post_init__, which applies the BUILDING_STATS health for the type
(no mod overrides); completed and build_progress keep their dataclass
defaults True and 100. -/
def mkBuilding (x y : ℚ) (t : BuildingType) (tm : Team) (uid : Nat) : Building :=
  { uid := uid, x := x, y := y, building_type := t, team := tm,
    health := BUILDING_STATS t, max_health := BUILDING_STATS t }

/-- entities.py Unit.set_building_target. -/
def Unit.set_building_target (u : Unit) (b : Building) : Unit :=
  { u with target_building := some b.uid, target_unit := none,
           target_x := some b.x, target_y := some b.y }

/-- entities.py Unit.clear_targets. -/
def Unit.clear_targets (u : Unit) : Unit :=
  { u with target_x := none, target_y := none, target_unit := none,
           target_building := none, attack_move_target := none }

/-- entities.py Unit.set_attack_move_target. -/
def Unit.set_attack_move_target (u : Unit) (x y : ℚ) : Unit :=
  { u with attack_move_target := some (x, y), target_x := some x,
           target_y := some y, target_unit := none, target_building := none }

/-- entities.py Unit.assign_to_building: only peasants are assigned; the
peasant starts commuting toward the building. -/
def Unit.assign_to_building (u : Unit) (b : Building) : Unit :=
  if u.unit_type = UnitType.PEASANT then
    ({ u with assigned_building := some b.uid,
              is_working := false } : Unit).set_move_target b.x b.y
  else u

/-- entities.py Unit.unassign_from_building. -/
def Unit.unassign_from_building (u : Unit) : Unit :=
  { u with assigned_building := none, is_working := false }

/-- entities.py Unit.distance_to_building. -/
def Unit.distance_to_building (u : Unit) (b : Building) : ℚ :=
  u.distance_to b.x b.y

/-- entities.py Unit.take_damage (the bool result of the Python method is
recovered by the callers here as a health ≤ 0 test). -/
def Unit.take_damage (u : Unit) (damage : Int) : Unit :=
  { u with health := u.health - damage }

/-- entities.py Unit.heal: heals up to max_health, pairs the updated unit
with the bool the Python method returns (whether any healing was done). -/
def Unit.heal (u : Unit) (amount : Int) : Unit × Bool :=
  if u.max_health ≤ u.health then (u, false)
  else ({ u with health := min u.max_health (u.health + amount) }, true)

/-- entities.py Unit.needs_healing. -/
def Unit.needs_healing (u : Unit) : Bool := decide (u.health < u.max_health)

/-- entities.py Unit.is_alive. -/
def Unit.is_alive (u : Unit) : Bool := decide (0 < u.health)

/-- entities.py Unit.update_work_status, with the assigned building resolved
by uid in the buildings list (callers guarantee the reference was dropped
when the building disappeared, mirroring _update_workers). -/
def Unit.update_work_status (u : Unit) (bs : List Building) : Unit :=
  if u.unit_type ≠ UnitType.PEASANT ∨ u.assigned_building = none then
    { u with is_working := false }
  else
    match u.assigned_building.bind (fun i => bs.find? (fun b => b.uid == i)) with
    | none => { u with is_working := false }
    | some b =>
      let dist := u.distance_to_building b
      let u' := { u with is_working := decide (dist ≤ WORKER_RANGE) }
      if ¬ (dist ≤ WORKER_RANGE) ∧ u'.target_x = none then
        u'.set_move_target b.x b.y
      else u'

/-- entities.py Building.get_max_workers. -/
def Building.get_max_workers (b : Building) : Nat :=
  (BUILDING_RESOURCE_GENERATION b.building_type).max_workers

/-- entities.py Building.count_workers: peasants of the same team assigned
to this building (uid match) and currently working. -/
def Building.count_workers (b : Building) (units : List Unit) : Nat :=
  (units.filter (fun u =>
    u.unit_type = UnitType.PEASANT ∧ u.team = b.team ∧
    u.assigned_building = some b.uid ∧ u.is_working = true)).length

/-- entities.py Building.get_production_multiplier: min 1 (workers / capacity),
0 when the capacity is 0. -/
def Building.get_production_multiplier (b : Building) (units : List Unit) : ℚ :=
  let mw := b.get_max_workers
  if mw = 0 then 0
  else min 1 ((b.count_workers units : ℚ) / (mw : ℚ))

/-- entities.py Building.get_resource_generation: the base yields scaled by
the production multiplier, truncated by int() (nonnegative here, so floor). -/
def Building.get_resource_generation (b : Building) (units : List Unit) : Cost :=
  let base := BUILDING_RESOURCE_GENERATION b.building_type
  let m := b.get_production_multiplier units
  { gold := Int.floor ((base.gold : ℚ) * m),
    food := Int.floor ((base.food : ℚ) * m),
    wood := Int.floor ((base.wood : ℚ) * m) }

/-- entities.py Building.get_size (width, height). -/
def Building.get_size (b : Building) : Int × Int :=
  match b.building_type with
  | BuildingType.HOUSE => (80, 80)
  | BuildingType.CASTLE => (128, 128)
  | BuildingType.FARM => (96, 96)
  | BuildingType.TOWER => (64, 64)
  | BuildingType.BARRICADE => (64, 64)

/-- entities.py Building.take_damage. -/
def Building.take_damage (b : Building) (damage : Int) : Building :=
  { b with health := b.health - damage }

/-- entities.py Building.is_destroyed. -/
def Building.is_destroyed (b : Building) : Bool := decide (b.health ≤ 0)

/-- pygame.Rect with integer fields (pygame truncates float inputs). -/
structure Rect where
  x : Int
  y : Int
  w : Int
  h : Int
deriving DecidableEq, Repr

/-- pygame Rect.collidepoint for a float point: inside the half-open box. -/
def Rect.collidepoint (r : Rect) (px py : ℚ) : Bool :=
  decide ((r.x : ℚ) ≤ px) && decide (px < (r.x : ℚ) + (r.w : ℚ)) &&
  decide ((r.y : ℚ) ≤ py) && decide (py < (r.y : ℚ) + (r.h : ℚ))

/-- pygame Rect.colliderect: strict overlap on both axes. -/
def Rect.colliderect (r o : Rect) : Bool :=
  decide (r.x < o.x + o.w) && decide (o.x < r.x + r.w) &&
  decide (r.y < o.y + o.h) && decide (o.y < r.y + r.h)

/-- pygame Rect.inflate: grow around the center. -/
def Rect.inflate (r : Rect) (dx dy : Int) : Rect :=
  { x := r.x - dx / 2, y := r.y - dy / 2, w := r.w + dx, h := r.h + dy }

/-- entities.py Unit.get_rect (pygame truncates the float corner). -/
def Unit.get_rect (u : Unit) : Rect :=
  let size := u.get_size
  { x := qtrunc (u.x - (size / 2 : Int)), y := qtrunc (u.y - (size / 2 : Int)),
    w := size, h := size }

/-- entities.py Building.get_rect. -/
def Building.get_rect (b : Building) : Rect :=
  let s := b.get_size
  { x := qtrunc (b.x - (s.1 / 2 : Int)), y := qtrunc (b.y - (s.2 / 2 : Int)),
    w := s.1, h := s.2 }

/-- Modelled from the spec: the Projectile class is imported by game.py from
entities.py but its definition is missing from the sources; fields follow
the spec data model (origin, captured target position, live target
reference, speed, damage, owning faction, tower-probabilistic-hit flag) and
the keyword arguments of the spawn sites in game.py. -/
structure Projectile where
  x : ℚ
  y : ℚ
  target_x : ℚ
  target_y : ℚ
  speed : ℚ := 5
  damage : Int := 10
  target_unit : Option Nat := none
  target_building : Option Nat := none
  team : Team := Team.PLAYER
  size : Int := 5
  is_tower_projectile : Bool := false
deriving DecidableEq, Repr

/-- Modelled from the spec: Projectile.update moves the projectile toward
the captured target position at constant speed and reports arrival (the
class itself is missing from entities.py); one step covers speed * dt. -/
def Projectile.update (p : Projectile) (dt : ℚ) : Projectile × Bool :=
  let dist := sqrtQ ((p.target_x - p.x) ^ 2 + (p.target_y - p.y) ^ 2)
  let step := p.speed * dt
  if dist ≤ step then
    ({ p with x := p.target_x, y := p.target_y }, true)
  else
    ({ p with x := p.x + (p.target_x - p.x) / dist * step,
              y := p.y + (p.target_y - p.y) / dist * step }, false)

/-- game.py Game: the fields of the simulation state that the core tick and
the claims touch (rendering, camera, menus, networking and the AI controller
object are kept outside; blood effects are visual only and dropped). -/
structure Game where
  units : List Unit := []
  buildings : List Building := []
  projectiles : List Projectile := []
  player_resources : Resources := {}
  enemy_resources : Resources := {}
  selected_units : List Nat := []
  resource_timer : ℚ := 0
  food_timer : ℚ := 0
  heal_timer : ℚ := 0
  player_healing_enabled : Bool := false
  enemy_healing_enabled : Bool := false
  placing_building : Option BuildingType := none
  grid_snap : Bool := false
  grid_size : Int := 64
  attack_move_mode : Bool := false
  uid_counter : Nat := 0
  game_over : Bool := false
deriving DecidableEq, Repr

/-- Find a unit by uid (Python object references resolved in the list). -/
def lookupU (us : List Unit) (i : Nat) : Option Unit :=
  us.find? (fun u => u.uid == i)

/-- Find a building by uid. -/
def lookupB (bs : List Building) (i : Nat) : Option Building :=
  bs.find? (fun b => b.uid == i)

/-- Apply an update to the unit with the given uid (in-place mutation of a
Python object reference, modelled on the list). -/
def mapUnit (us : List Unit) (i : Nat) (f : Unit → Unit) : List Unit :=
  us.map (fun u => if u.uid = i then f u else u)

/-- Apply an update to the building with the given uid. -/
def mapBuilding (bs : List Building) (i : Nat) (f : Building → Building) : List Building :=
  bs.map (fun b => if b.uid = i then f b else b)

/-- game.py heal settings fixed in Game.__init__. -/
def HEAL_INTERVAL : ℚ := 2
/-- HP healed per heal tick (Game.__init__). -/
def HEAL_AMOUNT : Int := 5
/-- Food cost per unit healed (Game.__init__). -/
def HEAL_FOOD_COST : Int := 3

/-- game.py _do_attack damage: max(1, attack - defense // 2), then int() of
the product with the uniform(0.8, 1.2) jitter; // is Python floor division
(Int.fdiv) and int() truncates toward zero (qtrunc). -/
def meleeDamage (attack defense : Int) (jitter : ℚ) : Int :=
  qtrunc ((((max 1 (attack - defense.fdiv 2)) : Int) : ℚ) * jitter)

/-- The overlap test of game.py _get_building_collision_slowdown: the unit
collision circle against the building circle of radius 0.4 max(w, h). -/
def overlapsBuilding (u : Unit) (b : Building) : Bool :=
  let s := b.get_size
  let minDist := u.get_collision_radius + ((max s.1 s.2 : Int) : ℚ) * (2/5)
  decide (sqrtQ ((u.x - b.x) ^ 2 + (u.y - b.y) ^ 2) < minDist)

/-- game.py Game._get_building_collision_slowdown: 0.3 for the first
building in list order whose footprint circle overlaps the unit when that
building is completed, 0.6 when it is incomplete, else 1.0. -/
def get_building_collision_slowdown : List Building → Unit → ℚ
  | [], _ => 1
  | b :: rest, u =>
    if overlapsBuilding u b then (if b.completed then 3/10 else 3/5)
    else get_building_collision_slowdown rest u

/-- game.py Game._do_attack: cannons spawn a projectile carrying the damage,
everyone else applies it to the defender immediately (blood effect dropped);
the jitter draw of this attack is jit attacker.uid. -/
def do_attack (jit : Nat → ℚ) (g : Game) (attacker defender : Unit) : Game :=
  let damage := meleeDamage attacker.attack defender.defense (jit attacker.uid)
  if attacker.unit_type = UnitType.CANNON then
    { g with projectiles := g.projectiles ++
        [{ x := attacker.x, y := attacker.y, target_x := defender.x,
           target_y := defender.y, speed := 300, damage := damage,
           target_unit := some defender.uid, team := attacker.team, size := 5 }] }
  else
    { g with units := mapUnit g.units defender.uid (fun v => v.take_damage damage) }

/-- Shared tail of game.py building-damage sites: apply the damage and, when
the building is destroyed, remove it and clear the target_building
references of every remaining unit. -/
def apply_building_damage (g : Game) (i : Nat) (d : Int) : Game :=
  let bs := mapBuilding g.buildings i (fun b => b.take_damage d)
  match lookupB bs i with
  | some b' =>
    if b'.is_destroyed then
      { g with buildings := bs.eraseP (fun b => b.uid == i),
               units := g.units.map (fun v =>
                 if v.target_building = some i then { v with target_building := none }
                 else v) }
    else { g with buildings := bs }
  | none => { g with buildings := bs }

/-- game.py Game._do_attack_building: full damage by default, halved (floor
division) for cavalry, 1.2 x and delivered by projectile for cannons. -/
def do_attack_building (g : Game) (attacker : Unit) (b : Building) : Game :=
  let damage := attacker.attack
  if attacker.unit_type = UnitType.CAVALRY then
    apply_building_damage g b.uid (damage.fdiv 2)
  else if attacker.unit_type = UnitType.CANNON then
    let damage := qtrunc ((damage : ℚ) * (6/5))
    { g with projectiles := g.projectiles ++
        [{ x := attacker.x, y := attacker.y, target_x := b.x, target_y := b.y,
           speed := 300, damage := damage, target_building := some b.uid,
           team := attacker.team, size := 5 }] }
  else
    apply_building_damage g b.uid damage

/-- The nearest-enemy-in-range scan of game.py _update_units: first strictly
nearest enemy unit within the given radius, in list order. -/
def findNearestEnemyInRange (us : List Unit) (u : Unit) (radius : ℚ) : Option Unit :=
  let best := us.foldl (fun (best : Option (Unit × ℚ)) o =>
    if o.team ≠ u.team then
      let d := u.distance_to_unit o
      if decide (d ≤ radius) && (match best with | none => true | some p => decide (d < p.2)) then
        some (o, d)
      else best
    else best) none
  best.map Prod.fst

/-- Movement-and-combat part of the game.py _update_units loop body for the
unit with uid i (the unit attacks its live unit target in range once the
cooldown has elapsed, else chases it; likewise for a building target with
the +50 range allowance; else walks toward its move target). -/
def unitCombatStep (now dt : ℚ) (jit : Nat → ℚ) (g : Game) (i : Nat) : Game :=
  match lookupU g.units i with
  | none => g
  | some u =>
    let sm := get_building_collision_slowdown g.buildings u
    match u.target_x, u.target_y with
    | some tx, some ty =>
      let tOpt := match u.target_unit with
        | some ti => (lookupU g.units ti).bind (fun t => if t.is_alive then some t else none)
        | none => none
      match tOpt with
      | some t =>
        if u.distance_to_unit t ≤ u.attack_range then
          if u.attack_cooldown ≤ now - u.last_attack then
            let g' := do_attack jit g u t
            { g' with units := mapUnit g'.units i (fun v => { v with last_attack := now }) }
          else g
        else { g with units := mapUnit g.units i (fun v => v.move_towards t.x t.y dt sm) }
      | none =>
        let bOpt := match u.target_building with
          | some bi => (lookupB g.buildings bi).bind
              (fun b => if b.is_destroyed then none else some b)
          | none => none
        match bOpt with
        | some b =>
          if u.distance_to_building b ≤ u.attack_range + 50 then
            if u.attack_cooldown ≤ now - u.last_attack then
              let g' := do_attack_building g u b
              { g' with units := mapUnit g'.units i (fun v => { v with last_attack := now }) }
            else g
          else { g with units := mapUnit g.units i (fun v => v.move_towards b.x b.y dt sm) }
        | none => { g with units := mapUnit g.units i (fun v => v.move_towards tx ty dt sm) }
    | _, _ => g

/-- Auto-acquire part of the game.py _update_units loop body: a unit without
unit or building target acquires the nearest enemy within its aggro radius
(4 x range when attack-moving, 3 x for military, 1.5 x otherwise), else -
military or attack-moving, and not assigned to a building - the first enemy
building within 2 x range. -/
def autoAcquireStep (g : Game) (i : Nat) : Game :=
  match lookupU g.units i with
  | none => g
  | some u =>
    if u.target_unit = none ∧ u.target_building = none then
      let isMil := u.unit_type = UnitType.KNIGHT ∨ u.unit_type = UnitType.CAVALRY ∨
        u.unit_type = UnitType.CANNON
      let isAM := u.attack_move_target.isSome
      let aggro := if isAM then u.attack_range * 4
        else if isMil then u.attack_range * 3 else u.attack_range * (3/2)
      match findNearestEnemyInRange g.units u aggro with
      | some e => { g with units := mapUnit g.units i (fun v => v.set_attack_target e) }
      | none =>
        if (isMil ∨ isAM) ∧ u.assigned_building = none then
          match g.buildings.find? (fun b =>
              decide (b.team ≠ u.team) && decide (u.distance_to_building b ≤ u.attack_range * 2)) with
          | some b => { g with units := mapUnit g.units i (fun v => v.set_building_target b) }
          | none => g
        else g
    else g

/-- Attack-move resumption part of the game.py _update_units loop body. -/
def attackMoveResumeStep (g : Game) (i : Nat) : Game :=
  match lookupU g.units i with
  | none => g
  | some u =>
    match u.attack_move_target with
    | some dest =>
      if u.target_unit = none ∧ u.target_building = none then
        let u1 := if u.target_x = none then
            { u with target_x := some dest.1, target_y := some dest.2 } else u
        let u2 := if u1.distance_to dest.1 dest.2 < 20 then
            { u1 with attack_move_target := none } else u1
        { g with units := mapUnit g.units i (fun _ => u2) }
      else g
    | none => g

/-- Dead-unit removal of game.py _update_units (lines 976-982): erase the
unit and clear the target_unit reference of every remaining unit that
pointed at it (blood effect dropped). -/
def removeDeadClear (us : List Unit) (i : Nat) : List Unit :=
  (us.eraseP (fun u => u.uid == i)).map (fun v =>
    if v.target_unit = some i then { v with target_unit := none } else v)

/-- Removal check at the end of the game.py _update_units loop body: the
visited unit is removed now iff it is dead now. -/
def deadRemovalStep (g : Game) (i : Nat) : Game :=
  match lookupU g.units i with
  | none => g
  | some u =>
    if u.is_alive then g else { g with units := removeDeadClear g.units i }

/-- Full game.py _update_units loop body for the unit with uid i. -/
def processUnit (now dt : ℚ) (jit : Nat → ℚ) (g : Game) (i : Nat) : Game :=
  deadRemovalStep (attackMoveResumeStep (autoAcquireStep (unitCombatStep now dt jit g i) i) i) i

/-- game.py Game._update_units: iterate over a snapshot of the unit list
(self.units[:]), processing each unit in order. -/
def update_units (now dt : ℚ) (jit : Nat → ℚ) (g : Game) : Game :=
  (g.units.map (fun u => u.uid)).foldl (processUnit now dt jit) g

/-- Clamp a position to the map bounds as the movement code does. -/
def clampPos (x y : ℚ) : ℚ × ℚ :=
  (max 20 (min (MAP_WIDTH - 20) x), max 20 (min (MAP_HEIGHT - 20) y))

/-- One inner-loop step of game.py _update_unit_collisions for the index
pair (i, j), j > i: push the other unit immediately, accumulate the push on
unit i. -/
def pushPair (dt : ℚ) (st : List Unit × (ℚ × ℚ)) (i j : Nat) : List Unit × (ℚ × ℚ) :=
  let us := st.1
  match us.get? i, us.get? j with
  | some u, some o =>
    let minDist := u.get_collision_radius + o.get_collision_radius
    let dx := u.x - o.x
    let dy := u.y - o.y
    let dist := sqrtQ (dx ^ 2 + dy ^ 2)
    if dist < minDist ∧ (1/10) < dist then
      let overlap := minDist - dist
      let nx := dx / dist
      let ny := dy / dist
      let half := overlap * 2 * dt * 60 * (1/2)
      let po := clampPos (o.x - nx * half) (o.y - ny * half)
      (us.set j { o with x := po.1, y := po.2 },
       (st.2.1 + nx * half, st.2.2 + ny * half))
    else st
  | _, _ => st

/-- Outer-loop step of game.py _update_unit_collisions for unit index i:
run the inner loop over all j > i, then apply the accumulated push to unit
i, clamped to map bounds. -/
def collideIndex (dt : ℚ) (us : List Unit) (i : Nat) : List Unit :=
  let r := (List.range us.length).foldl
    (fun st j => if j ≤ i then st else pushPair dt st i j) (us, (0, 0))
  match r.1.get? i with
  | some u =>
    let p := clampPos (u.x + r.2.1) (u.y + r.2.2)
    r.1.set i { u with x := p.1, y := p.2 }
  | none => r.1

/-- game.py Game._update_unit_collisions: the O(n^2) symmetric soft push. -/
def update_unit_collisions (dt : ℚ) (g : Game) : Game :=
  { g with units := (List.range g.units.length).foldl (collideIndex dt) g.units }

/-- game.py Game._update_workers: peasants drop references to buildings that
no longer exist, then refresh their working status. -/
def update_workers (g : Game) : Game :=
  { g with units := g.units.map (fun u =>
      if u.unit_type = UnitType.PEASANT then
        let u1 := if (match u.assigned_building with
            | some i => (lookupB g.buildings i).isNone
            | none => false) then u.unassign_from_building else u
        let u2 := if (match u1.constructing_building with
            | some i => (lookupB g.buildings i).isNone
            | none => false) then { u1 with constructing_building := none } else u1
        u2.update_work_status g.buildings
      else u) }

/-- game.py _update_construction loop body for the building with uid i:
progress from peasant builders within work range, completion at 100 with
builder release. -/
def constructionStep (dt : ℚ) (g : Game) (i : Nat) : Game :=
  match lookupB g.buildings i with
  | none => g
  | some b =>
    if ¬ b.completed ∧ b.team = Team.PLAYER then
      let builders := (g.units.filter (fun u =>
        decide (u.unit_type = UnitType.PEASANT) &&
        decide (u.constructing_building = some i) &&
        decide (u.distance_to_building b ≤ WORKER_RANGE))).length
      if 0 < builders then
        let rate := (100 / BUILD_TIMES b.building_type) *
          (1 + (1/2) * ((builders : ℚ) - 1))
        let prog := b.build_progress + rate * dt
        if 100 ≤ prog then
          let bs := mapBuilding g.buildings i
            (fun b0 => { b0 with build_progress := 100, completed := true })
          let us := g.units.map (fun u =>
            if u.constructing_building = some i then
              { u with constructing_building := none } else u)
          { g with buildings := bs, units := us }
        else
          let bs := mapBuilding g.buildings i
            (fun b0 => { b0 with build_progress := prog })
          { g with buildings := bs }
      else g
    else g

/-- game.py Game._update_construction over all buildings. -/
def update_construction (dt : ℚ) (g : Game) : Game :=
  (g.buildings.map (fun b => b.uid)).foldl (constructionStep dt) g

/-- Nearest enemy unit scan of game.py _update_tower_attacks: first strictly
nearest unit of the other team within the radius, in list order. -/
def findNearestEnemyOfBuilding (us : List Unit) (b : Building) (radius : ℚ) : Option Unit :=
  let best := us.foldl (fun (best : Option (Unit × ℚ)) o =>
    if o.team ≠ b.team then
      let d := sqrtQ ((o.x - b.x) ^ 2 + (o.y - b.y) ^ 2)
      if decide (d ≤ radius) && (match best with | none => true | some p => decide (d < p.2)) then
        some (o, d)
      else best
    else best) none
  best.map Prod.fst

/-- game.py _update_tower_attacks loop body as a pure function: a completed
tower with at least 2 working workers, an elapsed cooldown and an enemy in
range fires at the nearest one, producing the projectile and the tower with
its last_attack stamped; in every other case no projectile is produced. -/
def towerTryFire (now : ℚ) (units : List Unit) (b : Building) : Option (Projectile × Building) :=
  if b.building_type ≠ BuildingType.TOWER ∨ ¬ b.completed then none
  else if b.count_workers units < 2 then none
  else if now - b.last_attack < TOWER_COOLDOWN then none
  else
    match findNearestEnemyOfBuilding units b TOWER_RANGE with
    | none => none
    | some t =>
      some ({ x := b.x, y := b.y - 30, target_x := t.x, target_y := t.y,
              speed := 350, damage := TOWER_ATTACK, target_unit := some t.uid,
              team := b.team, size := 4, is_tower_projectile := true },
            { b with last_attack := now })

/-- game.py Game._update_tower_attacks over all buildings. -/
def update_tower_attacks (now : ℚ) (g : Game) : Game :=
  (g.buildings.map (fun b => b.uid)).foldl (fun g i =>
    match lookupB g.buildings i with
    | none => g
    | some b =>
      match towerTryFire now g.units b with
      | none => g
      | some pb =>
        { g with buildings := mapBuilding g.buildings i (fun _ => pb.2),
                 projectiles := g.projectiles ++ [pb.1] }) g

/-- Impact resolution of game.py _update_projectiles for one projectile that
reached its target: tower projectiles roll the hit chance now (roll is this
impact draw of random.random()), cannon projectiles always hit; a killed
unit is removed with its stale references cleared; a destroyed building
likewise (blood effects dropped). -/
def projectileImpact (roll : ℚ) (g : Game) (p : Projectile) : Game :=
  let uOpt := p.target_unit.bind (fun ti =>
    (lookupU g.units ti).bind (fun t => if t.is_alive then some t else none))
  match uOpt with
  | some t =>
    let shouldHit := if p.is_tower_projectile then decide (roll < TOWER_HIT_CHANCE) else true
    if shouldHit then
      let t' := t.take_damage p.damage
      if t'.health ≤ 0 then
        let us := removeDeadClear
          (mapUnit g.units t.uid (fun v => v.take_damage p.damage)) t.uid
        { g with units := us }
      else
        { g with units := mapUnit g.units t.uid (fun v => v.take_damage p.damage) }
    else g
  | none =>
    let bOpt := p.target_building.bind (fun bi =>
      (lookupB g.buildings bi).bind (fun b => if b.is_destroyed then none else some b))
    match bOpt with
    | some b => apply_building_damage g b.uid p.damage
    | none => g

/-- game.py Game._update_projectiles: every projectile advances; the ones
that arrive are removed from the list and resolved in order (roll idx is
the random.random() draw of the idx-th projectile of this pass). -/
def update_projectiles (dt : ℚ) (roll : Nat → ℚ) (g : Game) : Game :=
  let r := g.projectiles.foldl (fun (st : Game × List Projectile × Nat) p =>
    let (g0, kept, idx) := st
    let pu := p.update dt
    if pu.2 then (projectileImpact (roll idx) g0 pu.1, kept, idx + 1)
    else (g0, kept ++ [pu.1], idx + 1)) (g, [], 0)
  { r.1 with projectiles := r.2.1 }

/-- Per-building step of game.py _update_resources: completed buildings add
their worker-scaled yield to the resources of their faction. -/
def resourceStep (units : List Unit) (acc : Resources × Resources)
    (b : Building) : Resources × Resources :=
  if ¬ b.completed then acc
  else
    let gen := b.get_resource_generation units
    match b.team with
    | Team.PLAYER => (acc.1.addRes gen.gold gen.food gen.wood, acc.2)
    | Team.ENEMY => (acc.1, acc.2.addRes gen.gold gen.food gen.wood)

/-- game.py Game._update_resources: on the 5 second timer, every completed
building adds its worker-scaled yield to the resources of its faction. -/
def update_resources (dt : ℚ) (g : Game) : Game :=
  let t := g.resource_timer + dt
  if RESOURCE_TICK_INTERVAL ≤ t then
    let r := g.buildings.foldl (resourceStep g.units)
      (g.player_resources, g.enemy_resources)
    { g with resource_timer := 0, player_resources := r.1, enemy_resources := r.2 }
  else { g with resource_timer := t }

/-- One faction half of game.py _update_food_consumption: deduct the full
need when the stock covers it, else zero the stock and damage every unit of
the faction by the starvation damage. -/
def foodConsumptionFor (tm : Team) (res : Resources) (units : List Unit) :
    Resources × List Unit :=
  let teamUnits := units.filter (fun u => u.team = tm)
  let needed := (teamUnits.length : Int) * FOOD_PER_UNIT
  if needed ≤ res.food then
    ({ res with food := res.food - needed }, units)
  else
    ({ res with food := 0 },
     units.map (fun u => if u.team = tm then u.take_damage STARVATION_DAMAGE else u))

/-- game.py Game._update_food_consumption: on the 10 second timer, player
faction first, then enemy faction. -/
def update_food_consumption (dt : ℚ) (g : Game) : Game :=
  let t := g.food_timer + dt
  if FOOD_CONSUMPTION_INTERVAL ≤ t then
    let pr := foodConsumptionFor Team.PLAYER g.player_resources g.units
    let er := foodConsumptionFor Team.ENEMY g.enemy_resources pr.2
    { g with food_timer := 0, player_resources := pr.1,
             enemy_resources := er.1, units := er.2 }
  else { g with food_timer := t }

/-- One faction half of game.py _update_healing: heal each unit of the
faction below max health, for the fixed food cost each, while food lasts. -/
def healTeam (tm : Team) (units : List Unit) (res : Resources) :
    List Unit × Resources :=
  (units.filter (fun u => decide (u.team = tm) && u.needs_healing)).foldl
    (fun (st : List Unit × Resources) u =>
      if HEAL_FOOD_COST ≤ st.2.food then
        let h := u.heal HEAL_AMOUNT
        if h.2 then
          (mapUnit st.1 u.uid (fun _ => h.1),
           { st.2 with food := st.2.food - HEAL_FOOD_COST })
        else st
      else st) (units, res)

/-- game.py Game._update_healing on its 2 second timer, per enabled faction. -/
def update_healing (dt : ℚ) (g : Game) : Game :=
  let t := g.heal_timer + dt
  if t < HEAL_INTERVAL then { g with heal_timer := t }
  else
    let g := { g with heal_timer := 0 }
    let g := if g.player_healing_enabled then
        let r := healTeam Team.PLAYER g.units g.player_resources
        { g with units := r.1, player_resources := r.2 }
      else g
    if g.enemy_healing_enabled then
      let r := healTeam Team.ENEMY g.units g.enemy_resources
      { g with units := r.1, enemy_resources := r.2 }
    else g

/-- game.py Game._check_game_over: the game ends when either faction has no
castle left. -/
def check_game_over (g : Game) : Game :=
  let pc := g.buildings.any (fun b =>
    decide (b.building_type = BuildingType.CASTLE) && decide (b.team = Team.PLAYER))
  let ec := g.buildings.any (fun b =>
    decide (b.building_type = BuildingType.CASTLE) && decide (b.team = Team.ENEMY))
  if ¬ pc ∨ ¬ ec then { g with game_over := true } else g

/-- One simulation tick: the phase order of game.py Game._update_game
(camera, AI controller, network drain and the visual effect decay are
outside the embedded core; the AI functions are modelled separately below,
so tick theorems quantify over the post-AI state). -/
def tick (now dt : ℚ) (jit roll : Nat → ℚ) (g : Game) : Game :=
  check_game_over (update_healing dt (update_food_consumption dt
    (update_resources dt (update_projectiles dt roll
      (update_tower_attacks now (update_construction dt
        (update_workers (update_unit_collisions dt
          (update_units now dt jit g)))))))))

/-- Per-selected-unit effect of game.py Game._issue_command: peasants drop
their work and construction assignments first, then the branch chain
attack-move / enemy unit / enemy building / construction site (peasant) /
friendly completed building (peasant) / plain move. -/
def applyCommand (amm : Bool) (tu : Option Unit) (tb uc fb : Option Building)
    (wx wy : ℚ) (u : Unit) : Unit :=
  let u := if u.unit_type = UnitType.PEASANT ∧ u.assigned_building ≠ none then
      u.unassign_from_building else u
  let u := if u.unit_type = UnitType.PEASANT ∧ u.constructing_building ≠ none then
      { u with constructing_building := none } else u
  if amm then u.set_attack_move_target wx wy
  else match tu with
  | some t => u.set_attack_target t
  | none => match tb with
    | some b => u.set_building_target b
    | none => match uc with
      | some b =>
        if u.unit_type = UnitType.PEASANT then
          ({ u with constructing_building := some b.uid } : Unit).set_move_target b.x b.y
        else u.set_move_target wx wy
      | none => match fb with
        | some b =>
          if u.unit_type = UnitType.PEASANT then u.assign_to_building b
          else u.set_move_target wx wy
        | none => u.set_move_target wx wy

/-- game.py Game._issue_command: classify what was clicked (first enemy unit
whose rect contains the point, else the first building, split into enemy /
under construction / friendly), then apply the command to every selected
unit and reset attack-move mode (network replication is outside the core). -/
def issue_command (g : Game) (wx wy : ℚ) : Game :=
  let target_unit := g.units.find? (fun u =>
    decide (u.team = Team.ENEMY) && u.get_rect.collidepoint wx wy)
  let hitB := if target_unit.isSome then none
    else g.buildings.find? (fun b => b.get_rect.collidepoint wx wy)
  let target_building := hitB.bind (fun b =>
    if b.team = Team.ENEMY then some b else none)
  let under_construction := hitB.bind (fun b =>
    if b.team ≠ Team.ENEMY ∧ ¬ b.completed then some b else none)
  let friendly_building := hitB.bind (fun b =>
    if b.team ≠ Team.ENEMY ∧ b.completed then some b else none)
  let us := g.selected_units.foldl (fun us i =>
    mapUnit us i (applyCommand g.attack_move_mode target_unit target_building
      under_construction friendly_building wx wy)) g.units
  { g with units := us, attack_move_mode := false }

/-- game.py Game._get_building_placement_pos: optional snap to the grid
(Python round is banker's rounding, pyround). -/
def get_building_placement_pos (g : Game) (wx wy : ℚ) : ℚ × ℚ :=
  if g.grid_snap then
    (((pyround (wx / (g.grid_size : ℚ)) * g.grid_size : Int) : ℚ),
     ((pyround (wy / (g.grid_size : ℚ)) * g.grid_size : Int) : ℚ))
  else (wx, wy)

/-- The sizes dict of game.py _can_place_building (default 64 x 64). -/
def placement_size : BuildingType → Int × Int
  | BuildingType.HOUSE => (80, 80)
  | BuildingType.CASTLE => (128, 128)
  | BuildingType.FARM => (96, 96)
  | BuildingType.TOWER => (64, 64)
  | BuildingType.BARRICADE => (64, 64)

/-- game.py Game._can_place_building: the new rect must not collide with any
existing building rect inflated by 10, and must lie inside the map. -/
def can_place_building (g : Game) (px py : ℚ) (t : BuildingType) : Bool :=
  let s := placement_size t
  let newRect : Rect := { x := qtrunc (px - ((s.1 / 2 : Int) : ℚ)),
                          y := qtrunc (py - ((s.2 / 2 : Int) : ℚ)),
                          w := s.1, h := s.2 }
  if g.buildings.any (fun b => newRect.colliderect (b.get_rect.inflate 10 10)) then
    false
  else if px - ((s.1 / 2 : Int) : ℚ) < 0 ∨ MAP_WIDTH < px + ((s.1 / 2 : Int) : ℚ) ∨
      py - ((s.2 / 2 : Int) : ℚ) < 0 ∨ MAP_HEIGHT < py + ((s.2 / 2 : Int) : ℚ) then
    false
  else true

/-- game.py Game._place_building: with a pending building type, snap the
position, validate placement, charge the cost (abandoning the attempt if it
cannot be afforded, with the resources untouched) and append the new
foundation with completed = False and build_progress = 0. -/
def place_building (g : Game) (wx wy : ℚ) : Game :=
  match g.placing_building with
  | none => g
  | some t =>
    let pos := get_building_placement_pos g wx wy
    if ¬ can_place_building g pos.1 pos.2 t then g
    else
      let cost := BUILDING_COSTS t
      if ¬ g.player_resources.can_afford cost then { g with placing_building := none }
      else
        let res := (g.player_resources.spend cost).getD g.player_resources
        let b0 := mkBuilding pos.1 pos.2 t Team.PLAYER (g.uid_counter + 1)
        let b := { b0 with completed := false, build_progress := 0 }
        { g with player_resources := res, buildings := g.buildings ++ [b],
                 uid_counter := g.uid_counter + 1, placing_building := none }

/-- constants.py DIFFICULTY_SETTINGS aggression. -/
def aggression : Difficulty → ℚ
  | Difficulty.EASY => 3/10
  | Difficulty.NORMAL => 1/2
  | Difficulty.HARD => 7/10
  | Difficulty.BRUTAL => 9/10

/-- constants.py DIFFICULTY_SETTINGS military_cap. -/
def military_cap : Difficulty → Nat
  | Difficulty.EASY => 5
  | Difficulty.NORMAL => 8
  | Difficulty.HARD => 12
  | Difficulty.BRUTAL => 20

/-- ai.py AIBot mutable state (unit group members stored as uids). -/
structure AIState where
  difficulty : Difficulty := Difficulty.NORMAL
  attack_target : Option (ℚ × ℚ) := none
  flanking_active : Bool := false
  flank_target_left : Option (ℚ × ℚ) := none
  flank_target_right : Option (ℚ × ℚ) := none
  flank_units_left : List Nat := []
  flank_units_right : List Nat := []
  main_force_units : List Nat := []
  rally_point : Option (ℚ × ℚ) := none
  army_gathered : Bool := false
  gather_timer : ℚ := 0
deriving DecidableEq, Repr

/-- ai.py AIBot.my_units property. -/
def my_units (g : Game) : List Unit :=
  g.units.filter (fun u => u.team = Team.ENEMY)

/-- ai.py AIBot.my_buildings property. -/
def my_buildings (g : Game) : List Building :=
  g.buildings.filter (fun b => b.team = Team.ENEMY)

/-- ai.py AIBot.enemy_units property (the player units, from the AI side). -/
def ai_enemy_units (g : Game) : List Unit :=
  g.units.filter (fun u => u.team = Team.PLAYER)

/-- ai.py AIBot.military_units property. -/
def military_units (g : Game) : List Unit :=
  (my_units g).filter (fun u => u.unit_type ≠ UnitType.PEASANT)

/-- ai.py AIBot.enemy_military_units property. -/
def enemy_military_units (g : Game) : List Unit :=
  (ai_enemy_units g).filter (fun u => u.unit_type ≠ UnitType.PEASANT)

/-- ai.py AIBot.my_peasants property. -/
def my_peasants (g : Game) : List Unit :=
  (my_units g).filter (fun u => u.unit_type = UnitType.PEASANT)

/-- ai.py AIBot.idle_peasants property. -/
def idle_peasants (g : Game) : List Unit :=
  (my_peasants g).filter (fun u => u.assigned_building = none)

/-- ai.py AIBot.my_castle property (first castle among the AI buildings). -/
def my_castle (g : Game) : Option Building :=
  (my_buildings g).find? (fun b => b.building_type = BuildingType.CASTLE)

/-- ai.py AIBot._calculate_rally_point: 300 units from the castle toward
the attack target, clamped 100 from the map border (none without castle or
target; the castle itself when the target is on the castle). -/
def calculate_rally_point (castle : Option Building) (tgtOpt : Option (ℚ × ℚ)) :
    Option (ℚ × ℚ) :=
  match castle, tgtOpt with
  | some c, some t =>
    let dx := t.1 - c.x
    let dy := t.2 - c.y
    let dist := sqrtQ (dx ^ 2 + dy ^ 2)
    if dist < 1 then some (c.x, c.y)
    else
      some (max 100 (min (MAP_WIDTH - 100) (c.x + dx / dist * 300)),
            max 100 (min (MAP_HEIGHT - 100) (c.y + dy / dist * 300)))
  | _, _ => none

/-- ai.py AIBot._is_army_gathered: vacuously true without a rally point,
false with no military, else at least 70 percent of the military units
strictly within the gather radius 150 of the rally point. -/
def is_army_gathered (rally : Option (ℚ × ℚ)) (military : List Unit) : Bool :=
  match rally with
  | none => true
  | some rp =>
    if military.isEmpty then false
    else
      let gathered := (military.filter (fun u =>
        decide (u.distance_to rp.1 rp.2 < 150))).length
      decide ((military.length : ℚ) * (7/10) ≤ (gathered : ℚ))

/-- ai.py AIBot._should_use_flanking. -/
def should_use_flanking (d : Difficulty) (military enemyMil : List Unit) : Bool :=
  if d ≠ Difficulty.HARD ∧ d ≠ Difficulty.BRUTAL then false
  else if military.length < 6 then false
  else if d = Difficulty.BRUTAL ∧ 6 ≤ military.length then true
  else if d = Difficulty.HARD ∧ 8 ≤ military.length ∧
      enemyMil.length < military.length then true
  else false

/-- ai.py AIBot._calculate_flank_positions: perpendicular offsets of 250
around the target relative to the castle-to-target axis, clamped 100 from
the map border. -/
def calculate_flank_positions (castle : Option Building) (t : ℚ × ℚ) :
    (ℚ × ℚ) × (ℚ × ℚ) :=
  match castle with
  | none => (t, t)
  | some c =>
    let dx := t.1 - c.x
    let dy := t.2 - c.y
    let dist := sqrtQ (dx ^ 2 + dy ^ 2)
    if dist < 1 then (t, t)
    else
      let nx := dx / dist
      let ny := dy / dist
      let px := -ny
      let py := nx
      ((max 100 (min (MAP_WIDTH - 100) (t.1 + px * 250)),
        max 100 (min (MAP_HEIGHT - 100) (t.2 + py * 250))),
       (max 100 (min (MAP_WIDTH - 100) (t.1 - px * 250)),
        max 100 (min (MAP_HEIGHT - 100) (t.2 - py * 250))))

/-- Alternating split of the cavalry loop of _setup_flanking_attack: even
indices into the first list, odd indices into the second. -/
def altSplit : List Unit → List Unit × List Unit
  | [] => ([], [])
  | a :: rest =>
    let r := altSplit rest
    (a :: r.2, r.1)

/-- ai.py AIBot._setup_flanking_attack: with fewer than 6 military units
only deactivate; else split cavalry alternately onto the flanks, a third of
the knights to each flank and the rest plus all cannons to the main force;
a flank below the minimum size 2 aborts by merging every group into the
main force and deactivating. -/
def setup_flanking_attack (castle : Option Building) (military : List Unit)
    (ai : AIState) : AIState :=
  match ai.attack_target with
  | none => ai
  | some tgt =>
    if military.length < 6 then { ai with flanking_active := false }
    else
      let fp := calculate_flank_positions castle tgt
      let cavalry := military.filter (fun u => u.unit_type = UnitType.CAVALRY)
      let knights := military.filter (fun u => u.unit_type = UnitType.KNIGHT)
      let cannons := military.filter (fun u => u.unit_type = UnitType.CANNON)
      let cav := altSplit cavalry
      let fk := knights.length / 3
      let left := cav.1 ++ knights.take fk
      let right := cav.2 ++ (knights.drop fk).take fk
      let mainF := knights.drop (2 * fk) ++ cannons
      if left.length < 2 ∨ right.length < 2 then
        { ai with flank_target_left := some fp.1, flank_target_right := some fp.2,
                  flank_units_left := [], flank_units_right := [],
                  main_force_units := (mainF ++ left ++ right).map (fun u => u.uid),
                  flanking_active := false }
      else
        { ai with flank_target_left := some fp.1, flank_target_right := some fp.2,
                  flank_units_left := left.map (fun u => u.uid),
                  flank_units_right := right.map (fun u => u.uid),
                  main_force_units := mainF.map (fun u => u.uid),
                  flanking_active := true }

/-- ai.py AIBot._setup_attack: reset the gather state; Easy attacks with no
rally point and the army marked gathered immediately, Normal and above
compute a rally point; Hard and above may set up flanking. -/
def setup_attack (castle : Option Building) (military enemyMil : List Unit)
    (ai : AIState) : AIState :=
  let ai1 := { ai with army_gathered := false, gather_timer := 0 }
  let ai2 := if ai1.difficulty = Difficulty.EASY then
      { ai1 with rally_point := none, army_gathered := true }
    else { ai1 with rally_point := calculate_rally_point castle ai1.attack_target }
  if should_use_flanking ai2.difficulty military enemyMil then
    setup_flanking_attack castle military ai2
  else ai2

/-- ai.py AIBot._find_nearest_enemy: min by distance over the player units,
first minimal on ties, none when there are none. -/
def find_nearest_enemy (enemyUnits : List Unit) (u : Unit) : Option Unit :=
  match enemyUnits with
  | [] => none
  | e :: rest => some (rest.foldl (fun best o =>
      if u.distance_to_unit o < u.distance_to_unit best then o else best) e)

/-- Per-unit body of ai.py _execute_gather_phase: stay in a close fight,
fight back against a nearby enemy, else walk to the rally point or wait
there with targets cleared. -/
def gather_move_unit (rp : ℚ × ℚ) (enemyUnits : List Unit) (us : List Unit)
    (u : Unit) : Unit :=
  let engaged := match u.target_unit with
    | some ti => match lookupU us ti with
      | some t => t.is_alive && decide (u.distance_to_unit t < u.attack_range + 100)
      | none => false
    | none => false
  if engaged then u
  else
    let fight := match find_nearest_enemy enemyUnits u with
      | some e => if u.distance_to_unit e < u.attack_range + 50 then some e else none
      | none => none
    match fight with
    | some e => u.set_attack_target e
    | none =>
      if 80 < u.distance_to rp.1 rp.2 then u.set_move_target rp.1 rp.2
      else if u.target_x ≠ none ∧ u.target_unit = none then u.clear_targets
      else u

/-- ai.py AIBot._execute_gather_phase: move every military unit toward the
rally point (with the engagement exceptions), then mark the army gathered
when _is_army_gathered holds, setting up flanking at that moment on Hard
and above (the caller guarantees a rally point is set). -/
def execute_gather_phase (g : Game) (ai : AIState) : Game × AIState :=
  match ai.rally_point with
  | none => (g, ai)
  | some rp =>
    let enemyUnits := ai_enemy_units g
    let ids := (military_units g).map (fun u => u.uid)
    let us := ids.foldl (fun us i =>
      mapUnit us i (gather_move_unit rp enemyUnits us)) g.units
    let g' := { g with units := us }
    let military := military_units g'
    if is_army_gathered ai.rally_point military then
      let ai1 := { ai with army_gathered := true }
      let ai2 := if should_use_flanking ai1.difficulty military
          (enemy_military_units g') then
          setup_flanking_attack (my_castle g') military ai1
        else ai1
      (g', ai2)
    else (g', ai)

/-- The flank-group cleanup opening ai.py _execute_flanking_attack (lines
718 to 728): drop dead or departed members from all three groups, then
deactivate flanking when fewer than 2 flankers remain in total. -/
def flank_cleanup (gameUnits : List Unit) (ai : AIState) : AIState :=
  let keep := fun (i : Nat) => match lookupU gameUnits i with
    | some u => u.is_alive
    | none => false
  let left := ai.flank_units_left.filter keep
  let right := ai.flank_units_right.filter keep
  let mainF := ai.main_force_units.filter keep
  let ai' := { ai with flank_units_left := left, flank_units_right := right,
                       main_force_units := mainF }
  if left.length + right.length < 2 then { ai' with flanking_active := false }
  else ai'

/-- Group- and flag-state effect of ai.py _execute_flanking_attack: the
cleanup, then (when flanking continues) newly trained military units are
appended to the main force; the interleaved _execute_unit_attack calls
mutate only unit targets, never the groups or the flag, and are elided. -/
def flank_group_maintenance (g : Game) (ai : AIState) : AIState :=
  let ai' := flank_cleanup g.units ai
  if ai'.flank_units_left.length + ai'.flank_units_right.length < 2 then ai'
  else
    let assigned := ai'.flank_units_left ++ ai'.flank_units_right ++
      ai'.main_force_units
    let newcomers := ((military_units g).filter
      (fun u => ¬ assigned.contains u.uid)).map (fun u => u.uid)
    { ai' with main_force_units := ai'.main_force_units ++ newcomers }

/-- Inner while-loop of ai.py _assign_workers for one building: assign idle
peasants (popped from the front) while the worker count stays below the
capacity. -/
def assignLoop (b : Building) (max_w : Nat) : List Unit → List Nat → Nat →
    List Unit × List Nat
  | units, [], _ => (units, [])
  | units, i :: rest, current =>
    if current < max_w then
      assignLoop b max_w (mapUnit units i (fun u => u.assign_to_building b))
        rest (current + 1)
    else (units, i :: rest)

/-- ai.py AIBot._assign_workers: farms first (Python sorted is stable, and
the 0/1 key makes it the farms-then-others concatenation), each building
taking idle peasants until its capacity counter reaches max_workers. -/
def ai_assign_workers (g : Game) : Game :=
  let idle := (idle_peasants g).map (fun u => u.uid)
  if idle.isEmpty then g
  else
    let sortedB := (my_buildings g).filter
        (fun b => b.building_type = BuildingType.FARM) ++
      (my_buildings g).filter (fun b => b.building_type ≠ BuildingType.FARM)
    let r := sortedB.foldl (fun (st : List Unit × List Nat) b =>
      let current := b.count_workers st.1
      assignLoop b b.get_max_workers st.1 st.2 current) (g.units, idle)
    { g with units := r.1 }

/-- ai.py AIBot._try_build_building: the AI pays the cost and appends the
new building directly; ox and oy stand for the random placement offsets
cos(angle) * dist and sin(angle) * dist of the two random draws.  The
Building is created with the dataclass defaults, so completed = True and
build_progress = 100. -/
def ai_try_build_building (g : Game) (t : BuildingType) (ox oy : ℚ) : Game :=
  let cost := BUILDING_COSTS t
  if ¬ g.enemy_resources.can_afford cost then g
  else
    match my_castle g with
    | none => g
    | some c =>
      let x := max 100 (min (MAP_WIDTH - 100) (c.x + ox))
      let y := max 100 (min (MAP_HEIGHT - 100) (c.y + oy))
      let res := (g.enemy_resources.spend cost).getD g.enemy_resources
      let b := mkBuilding x y t Team.ENEMY (g.uid_counter + 1)
      { g with enemy_resources := res, buildings := g.buildings ++ [b],
               uid_counter := g.uid_counter + 1 }

/-! Helper lemmas. -/

theorem qtrunc_eq_floor {q : ℚ} (h : 0 ≤ q) : qtrunc q = ⌊q⌋ := by
  unfold qtrunc
  rw [Rat.floor_def]
  exact Int.tdiv_eq_ediv (Rat.num_nonneg.mpr h) (Int.ofNat_nonneg q.den)

theorem qtrunc_nonneg {q : ℚ} (h : 0 ≤ q) : 0 ≤ qtrunc q :=
  Int.tdiv_nonneg (Rat.num_nonneg.mpr h) (Int.ofNat_nonneg q.den)

/-! Claim C1. -/

/-- C1: spend is atomic over the three stocks: when every stock covers its
requested amount the exact requested gold, food and wood are deducted, else
it fails with the stocks untouched; from nonnegative stocks it never
produces a negative stock.  Moreover any faction whose gold is 90 that
attempts to place a House (cost gold 100, wood 50) keeps its resources
unchanged and adds no building. -/
theorem C1_spend_atomic :
    (∀ (r : Resources) (c : Cost),
      (r.can_afford c = true →
        r.spend c = some { gold := r.gold - c.gold, food := r.food - c.food,
                           wood := r.wood - c.wood }) ∧
      (r.can_afford c = false → r.spend c = none) ∧
      (0 ≤ r.gold → 0 ≤ r.food → 0 ≤ r.wood →
        ∀ r', r.spend c = some r' → 0 ≤ r'.gold ∧ 0 ≤ r'.food ∧ 0 ≤ r'.wood)) ∧
    (∀ (g : Game) (wx wy : ℚ), g.player_resources.gold = 90 →
      g.placing_building = some BuildingType.HOUSE →
      (place_building g wx wy).player_resources = g.player_resources ∧
      (place_building g wx wy).buildings = g.buildings) := by
  constructor
  · intro r c
    refine ⟨?_, ?_, ?_⟩
    · intro h
      simp [Resources.spend, h]
    · intro h
      simp [Resources.spend, h]
    · intro _ _ _ r' h
      simp only [Resources.spend] at h
      split at h
      · rename_i hc
        have h1 : c.gold ≤ r.gold ∧ c.food ≤ r.food ∧ c.wood ≤ r.wood := by
          simpa [Resources.can_afford, Bool.and_eq_true, decide_eq_true_eq,
            and_assoc] using hc
        rw [Option.some.injEq] at h
        refine ⟨?_, ?_, ?_⟩ <;> (rw [← h]; dsimp only; omega)
      · exact absurd h (by simp)
  · intro g wx wy hg hp
    have haff : g.player_resources.can_afford (BUILDING_COSTS BuildingType.HOUSE) = false := by
      simp [Resources.can_afford, BUILDING_COSTS, hg]
    simp only [place_building, hp]
    split
    · exact ⟨rfl, rfl⟩
    · simp [haff]

/-- The game of the C1 scenario: a faction holding 90 gold with a House
placement pending. -/
def C1game : Game :=
  { player_resources := ⟨90, 200, 300⟩,
    placing_building := some BuildingType.HOUSE }

/-- C1 witness: the concrete scenario of the claim, with stocks 90, 200, 300
and the House cost. -/
theorem C1_spend_atomic_witness :
    Resources.spend ⟨90, 200, 300⟩ (BUILDING_COSTS BuildingType.HOUSE) = none ∧
    (place_building C1game 500 500).buildings = [] := by
  constructor
  · exact (C1_spend_atomic.1 ⟨90, 200, 300⟩ (BUILDING_COSTS BuildingType.HOUSE)).2.1
      (by decide)
  · exact (C1_spend_atomic.2 C1game 500 500 rfl rfl).2

/-! Claim C4. -/

/-- C4 counterexample: a Knight (attack 20) on a Peasant (defense 2,
health 50) deals exactly 15 at the minimum jitter 0.8, so after three
minimum-jitter hits the Peasant is still alive (health 5), contradicting
that it dies within 3 hits even at minimum jitter. -/
theorem C4_counterexample :
    (UNIT_STATS UnitType.KNIGHT).attack = 20 ∧
    (UNIT_STATS UnitType.PEASANT).defense = 2 ∧
    (UNIT_STATS UnitType.PEASANT).health = 50 ∧
    meleeDamage 20 2 (4/5) = 15 ∧
    ((((mkUnit 0 0 UnitType.PEASANT Team.PLAYER 1).take_damage 15).take_damage
        15).take_damage 15).is_alive = true := by
  refine ⟨rfl, rfl, rfl, ?_, by decide⟩
  have hf : (2 : Int).fdiv 2 = 1 := by decide
  have h0 : (0 : ℚ) ≤ ((max 1 ((20 : Int) - (2 : Int).fdiv 2) : Int) : ℚ) * (4/5) := by
    rw [hf]; norm_num
  unfold meleeDamage
  rw [qtrunc_eq_floor h0, hf]
  norm_num [Int.floor_eq_iff]

/-- C4 (amended): for a non-cannon attacker the damage applied to the
defender is exactly meleeDamage, which equals the floor of
max(1, attack - defense // 2) times the jitter for any nonnegative jitter;
for the Knight-versus-Peasant stats the per-hit damage lies in 15..22 for
jitter in the uniform range 0.8..1.2, and the 50-health Peasant dies within
4 minimum-jitter hits (not 3). -/
theorem C4_melee_damage :
    (∀ (jitf : Nat → ℚ) (g : Game) (a t : Unit), a.unit_type ≠ UnitType.CANNON →
      (do_attack jitf g a t).units = mapUnit g.units t.uid
        (fun v => v.take_damage (meleeDamage a.attack t.defense (jitf a.uid)))) ∧
    (∀ j : ℚ, 0 ≤ j → ∀ a d : Int,
      meleeDamage a d j = ⌊((max 1 (a - d.fdiv 2) : Int) : ℚ) * j⌋) ∧
    (∀ j : ℚ, 4/5 ≤ j → j ≤ 6/5 →
      15 ≤ meleeDamage (UNIT_STATS UnitType.KNIGHT).attack
          (UNIT_STATS UnitType.PEASANT).defense j ∧
      meleeDamage (UNIT_STATS UnitType.KNIGHT).attack
          (UNIT_STATS UnitType.PEASANT).defense j ≤ 22) ∧
    ((((((mkUnit 0 0 UnitType.PEASANT Team.PLAYER 1).take_damage 15).take_damage
        15).take_damage 15).take_damage 15).is_alive = false) := by
  have hmain : ∀ j : ℚ, 0 ≤ j → ∀ a d : Int,
      meleeDamage a d j = ⌊((max 1 (a - d.fdiv 2) : Int) : ℚ) * j⌋ := by
    intro j hj a d
    unfold meleeDamage
    have h1 : (1 : Int) ≤ max 1 (a - d.fdiv 2) := le_max_left _ _
    have h0 : (0 : ℚ) ≤ ((max 1 (a - d.fdiv 2) : Int) : ℚ) * j := by
      apply mul_nonneg _ hj
      exact_mod_cast le_trans zero_le_one h1
    exact qtrunc_eq_floor h0
  refine ⟨?_, hmain, ?_, by decide⟩
  · intro jitf g a t h
    simp [do_attack, h]
  · intro j hj1 hj2
    have hf : (2 : Int).fdiv 2 = 1 := by decide
    have he : meleeDamage 20 2 j = ⌊(19 : ℚ) * j⌋ := by
      rw [hmain j (le_trans (by norm_num) hj1) 20 2, hf]
      norm_num
    refine ⟨?_, ?_⟩
    · show 15 ≤ meleeDamage 20 2 j
      rw [he]
      rw [Int.le_floor]
      push_cast
      nlinarith
    · show meleeDamage 20 2 j ≤ 22
      rw [he]
      rw [Int.floor_le_iff]
      push_cast
      nlinarith

/-- C4 witness: the amended bounds at the concrete minimum jitter 0.8. -/
theorem C4_melee_damage_witness :
    15 ≤ meleeDamage (UNIT_STATS UnitType.KNIGHT).attack
        (UNIT_STATS UnitType.PEASANT).defense (4/5) ∧
    meleeDamage (UNIT_STATS UnitType.KNIGHT).attack
        (UNIT_STATS UnitType.PEASANT).defense (4/5) ≤ 22 :=
  C4_melee_damage.2.2.1 (4/5) (by norm_num) (by norm_num)

/-! Claim C5. -/

/-- C5: on a food-consumption tick for a faction whose stored units are all
living, when the stock covers units x FOOD_PER_UNIT exactly that amount is
deducted and no unit is touched; otherwise the stock becomes exactly 0 and
every unit of the faction takes STARVATION_DAMAGE; the stock never becomes
negative. -/
theorem C5_food :
    ∀ (res : Resources) (units : List Unit) (tm : Team),
      (∀ u ∈ units, u.is_alive = true) →
      ((((units.filter (fun u => u.team = tm)).length : Int) * FOOD_PER_UNIT ≤ res.food →
          foodConsumptionFor tm res units =
            ({ res with food := res.food -
                ((units.filter (fun u => u.team = tm)).length : Int) * FOOD_PER_UNIT },
             units)) ∧
        (res.food < ((units.filter (fun u => u.team = tm)).length : Int) * FOOD_PER_UNIT →
          (foodConsumptionFor tm res units).1.food = 0 ∧
          (foodConsumptionFor tm res units).2 = units.map (fun u =>
            if u.team = tm then u.take_damage STARVATION_DAMAGE else u)) ∧
        (0 ≤ res.food → 0 ≤ (foodConsumptionFor tm res units).1.food)) := by
  intro res units tm _
  refine ⟨?_, ?_, ?_⟩
  · intro h
    simp only [foodConsumptionFor]
    rw [if_pos h]
  · intro h
    simp only [foodConsumptionFor]
    rw [if_neg (by omega)]
    exact ⟨rfl, rfl⟩
  · intro h
    simp only [foodConsumptionFor]
    split
    · simp only []
      omega
    · simp

/-- The five living units of the C5 scenario. -/
def C5units : List Unit :=
  [mkUnit 100 100 UnitType.PEASANT Team.PLAYER 1,
   mkUnit 120 100 UnitType.PEASANT Team.PLAYER 2,
   mkUnit 140 100 UnitType.PEASANT Team.PLAYER 3,
   mkUnit 160 100 UnitType.KNIGHT Team.PLAYER 4,
   mkUnit 180 100 UnitType.KNIGHT Team.PLAYER 5]

/-- C5 witness: a faction with food 0 and 5 living units keeps stock exactly
0 and every unit takes the starvation damage. -/
theorem C5_food_witness :
    (foodConsumptionFor Team.PLAYER ⟨500, 0, 300⟩ C5units).1.food = 0 ∧
    (foodConsumptionFor Team.PLAYER ⟨500, 0, 300⟩ C5units).2 =
      C5units.map (fun u => if u.team = Team.PLAYER then
        u.take_damage STARVATION_DAMAGE else u) :=
  (C5_food ⟨500, 0, 300⟩ C5units Team.PLAYER (by decide)).2.1 (by decide)

/-! Claim C9. -/

theorem sqrtQ_natCast (n : Nat) : sqrtQ (n : ℚ) = isqrt n := by
  unfold sqrtQ
  rw [Rat.num_natCast, Rat.den_natCast]
  simp

/-- The unit of the C9 configurations (a peasant, collision radius 14). -/
def C9unit : Unit := mkUnit 500 500 UnitType.PEASANT Team.PLAYER 1

/-- A completed house overlapping C9unit (center distance 10 < 14 + 32). -/
def C9comp : Building := mkBuilding 510 500 BuildingType.HOUSE Team.PLAYER 10

/-- An incomplete house overlapping C9unit on the other side. -/
def C9inc : Building :=
  { mkBuilding 490 500 BuildingType.HOUSE Team.PLAYER 11 with
    completed := false, build_progress := 0 }

theorem C9unit_overlaps_comp : overlapsBuilding C9unit C9comp = true := by
  have harg : ((C9unit.x - C9comp.x) ^ 2 + (C9unit.y - C9comp.y) ^ 2) = ((100 : Nat) : ℚ) := by
    show (((500:ℚ) - 510) ^ 2 + ((500:ℚ) - 500) ^ 2) = ((100 : Nat) : ℚ)
    push_cast
    norm_num
  have hs : sqrtQ ((C9unit.x - C9comp.x) ^ 2 + (C9unit.y - C9comp.y) ^ 2) = 10 := by
    rw [harg, sqrtQ_natCast]
    norm_num [show isqrt 100 = 10 from by decide]
  unfold overlapsBuilding
  rw [hs]
  have : C9unit.get_collision_radius = 14 := by decide
  rw [this]
  norm_num [C9comp, mkBuilding, Building.get_size]

theorem C9unit_overlaps_inc : overlapsBuilding C9unit C9inc = true := by
  have harg : ((C9unit.x - C9inc.x) ^ 2 + (C9unit.y - C9inc.y) ^ 2) = ((100 : Nat) : ℚ) := by
    show (((500:ℚ) - 490) ^ 2 + ((500:ℚ) - 500) ^ 2) = ((100 : Nat) : ℚ)
    push_cast
    norm_num
  have hs : sqrtQ ((C9unit.x - C9inc.x) ^ 2 + (C9unit.y - C9inc.y) ^ 2) = 10 := by
    rw [harg, sqrtQ_natCast]
    norm_num [show isqrt 100 = 10 from by decide]
  unfold overlapsBuilding
  rw [hs]
  have : C9unit.get_collision_radius = 14 := by decide
  rw [this]
  norm_num [C9inc, mkBuilding, Building.get_size]

/-- C9 counterexample: one unit simultaneously overlapping an incomplete and
a completed building; the multiplier is decided by whichever building comes
first in the buildings list (0.3 or 0.6 for the same pair of overlaps), so
it is not the function of the overlap statuses the claim describes - in the
first list the unit overlaps an incomplete building yet moves at 0.3, in
the second it overlaps a completed building yet moves at 0.6. -/
theorem C9_counterexample :
    overlapsBuilding C9unit C9inc = true ∧
    overlapsBuilding C9unit C9comp = true ∧
    C9comp.completed = true ∧ C9inc.completed = false ∧
    get_building_collision_slowdown [C9comp, C9inc] C9unit = 3/10 ∧
    get_building_collision_slowdown [C9inc, C9comp] C9unit = 3/5 := by
  refine ⟨C9unit_overlaps_inc, C9unit_overlaps_comp, rfl, rfl, ?_, ?_⟩
  · rw [get_building_collision_slowdown, if_pos C9unit_overlaps_comp]
    rfl
  · rw [get_building_collision_slowdown, if_pos C9unit_overlaps_inc]
    rfl

/-- C9 (amended): the movement speed multiplier equals 1.0 when no building
footprint circle overlaps the unit, and otherwise is decided by the first
overlapping building in the buildings list: 0.3 when that building is
completed, 0.6 when it is incomplete; in particular a unit whose (first)
overlap is a completed building moves at 0.3 x its nominal speed. -/
theorem C9_slowdown_spec :
    (∀ (bs : List Building) (u : Unit),
      get_building_collision_slowdown bs u =
        (match bs.find? (fun b => overlapsBuilding u b) with
         | some b => if b.completed then 3/10 else 3/5
         | none => 1)) ∧
    (∀ (u : Unit) (b : Building), overlapsBuilding u b = true → b.completed = true →
      get_building_collision_slowdown [b] u = 3/10) := by
  have hmain : ∀ (bs : List Building) (u : Unit),
      get_building_collision_slowdown bs u =
        (match bs.find? (fun b => overlapsBuilding u b) with
         | some b => if b.completed then 3/10 else 3/5
         | none => 1) := by
    intro bs u
    induction bs with
    | nil => rfl
    | cons b rest ih =>
      by_cases h : overlapsBuilding u b = true
      · rw [get_building_collision_slowdown, if_pos h, List.find?_cons_of_pos _ h]
      · rw [get_building_collision_slowdown,
          if_neg (by simpa using h), ih,
          List.find?_cons_of_neg _ (by simpa using h)]
  refine ⟨hmain, ?_⟩
  intro u b hov hc
  rw [hmain [b] u, List.find?_cons_of_pos _ hov]
  simp [hc]

/-- C9 witness: the unit standing inside the completed house of the
counterexample configuration alone moves at 0.3 x speed. -/
theorem C9_slowdown_spec_witness :
    get_building_collision_slowdown [C9comp] C9unit = 3/10 :=
  C9_slowdown_spec.2 C9unit C9comp C9unit_overlaps_comp rfl

/-! Claim C10. -/

theorem mapBuilding_uids (bs : List Building) (i : Nat) (f : Building → Building)
    (h : ∀ b, (f b).uid = b.uid) :
    (mapBuilding bs i f).map (fun b => b.uid) = bs.map (fun b => b.uid) := by
  unfold mapBuilding
  rw [List.map_map]
  apply List.map_congr_left
  intro b _
  by_cases hb : b.uid = i <;> simp [hb, h]

theorem foldl_filter_completed {α : Type} (f : α → Building → α)
    (hskip : ∀ acc b, b.completed = false → f acc b = acc) :
    ∀ (bs : List Building) (acc : α),
      bs.foldl f acc = (bs.filter (fun b => b.completed)).foldl f acc := by
  intro bs
  induction bs with
  | nil => intro acc; rfl
  | cons b rest ih =>
    intro acc
    by_cases h : b.completed = true
    · simp [List.filter_cons, h, List.foldl_cons, ih]
    · have hf : b.completed = false := by simpa using h
      simp [List.filter_cons, hf, List.foldl_cons, ih, hskip acc b hf]

theorem constructionStep_enemy (dt : ℚ) (g : Game) (i : Nat) :
    (constructionStep dt g i).buildings.map (fun b => b.uid) =
      g.buildings.map (fun b => b.uid) ∧
    ((g.buildings.map (fun b => b.uid)).Nodup →
      ∀ b ∈ g.buildings, b.team = Team.ENEMY →
        b ∈ (constructionStep dt g i).buildings) := by
  simp only [constructionStep]
  constructor
  · split
    · rfl
    · split
      · split
        · split
          · exact mapBuilding_uids _ _ _ (fun b => rfl)
          · exact mapBuilding_uids _ _ _ (fun b => rfl)
        · rfl
      · rfl
  · intro hnd b hb hteam
    split
    · exact hb
    · rename_i b0 hfound
      have hb0mem : b0 ∈ g.buildings ∧ (b0.uid == i) = true :=
        List.find?_some hfound |> fun h2 => ⟨List.mem_of_find?_eq_some hfound, h2⟩
      split
      · rename_i hcond
        have hbne : b.uid ≠ i := by
          intro hcontra
          have hbb0 : b = b0 := by
            have huid : b0.uid = i := by simpa using hb0mem.2
            exact List.inj_on_of_nodup_map hnd hb hb0mem.1 (by simp [hcontra, huid])
          rw [hbb0] at hteam
          rw [hteam] at hcond
          exact absurd hcond (by simp)
        split
        · split
          · apply List.mem_map.mpr
            exact ⟨b, hb, by simp [hbne]⟩
          · apply List.mem_map.mpr
            exact ⟨b, hb, by simp [hbne]⟩
        · exact hb
      · exact hb

theorem update_construction_enemy (dt : ℚ) :
    ∀ (l : List Nat) (g : Game), (g.buildings.map (fun b => b.uid)).Nodup →
      ∀ b ∈ g.buildings, b.team = Team.ENEMY →
        b ∈ (l.foldl (constructionStep dt) g).buildings := by
  intro l
  induction l with
  | nil => intro g _ b hb _; exact hb
  | cons i rest ih =>
    intro g hnd b hb hteam
    rw [List.foldl_cons]
    have hstep := constructionStep_enemy dt g i
    apply ih
    · rw [hstep.1]; exact hnd
    · exact hstep.2 hnd b hb hteam
    · exact hteam

/-- C10: an AI-created building enters the game already completed with
build_progress 100 (the dataclass defaults), while a player-placed building
starts with completed = False and build_progress = 0; construction progress
is applied only to player-team buildings, so enemy-team buildings pass
through _update_construction untouched; and the resource pass is blind to
incomplete buildings (it computes the same faction incomes as if they were
absent), so a completed AI building participates immediately. -/
theorem C10_construction :
    (∀ (g : Game) (t : BuildingType) (ox oy : ℚ),
      ∀ b ∈ (ai_try_build_building g t ox oy).buildings, b ∉ g.buildings →
        b.completed = true ∧ b.build_progress = 100) ∧
    (∀ (g : Game) (wx wy : ℚ),
      ∀ b ∈ (place_building g wx wy).buildings, b ∉ g.buildings →
        b.completed = false ∧ b.build_progress = 0) ∧
    (∀ (dt : ℚ) (g : Game), (g.buildings.map (fun b => b.uid)).Nodup →
      ∀ b ∈ g.buildings, b.team = Team.ENEMY →
        b ∈ (update_construction dt g).buildings) ∧
    (∀ (dt : ℚ) (g : Game),
      (update_resources dt g).player_resources =
        (update_resources dt { g with buildings := g.buildings.filter (fun b => b.completed) }).player_resources ∧
      (update_resources dt g).enemy_resources =
        (update_resources dt { g with buildings := g.buildings.filter (fun b => b.completed) }).enemy_resources) := by
  refine ⟨?_, ?_, ?_, ?_⟩
  · intro g t ox oy b hb hnotin
    simp only [ai_try_build_building] at hb
    split at hb
    · exact absurd hb hnotin
    · split at hb
      · exact absurd hb hnotin
      · simp only [List.mem_append, List.mem_singleton] at hb
        rcases hb with hb | hb
        · exact absurd hb hnotin
        · subst hb; exact ⟨rfl, rfl⟩
  · intro g wx wy b hb hnotin
    simp only [place_building] at hb
    split at hb
    · exact absurd hb hnotin
    · split at hb
      · exact absurd hb hnotin
      · split at hb
        · exact absurd hb hnotin
        · simp only [List.mem_append, List.mem_singleton] at hb
          rcases hb with hb | hb
          · exact absurd hb hnotin
          · subst hb; exact ⟨rfl, rfl⟩
  · intro dt g hnd b hb hteam
    exact update_construction_enemy dt _ g hnd b hb hteam
  · intro dt g
    simp only [update_resources]
    have hfold := foldl_filter_completed (resourceStep g.units)
      (fun acc b hb => by simp [resourceStep, hb])
    split
    · rw [hfold g.buildings]
      exact ⟨rfl, rfl⟩
    · exact ⟨rfl, rfl⟩

/-- C10 witness: a concrete enemy house passes through construction
untouched (hypotheses discharged on a one-building game). -/
theorem C10_construction_witness :
    mkBuilding 1800 200 BuildingType.HOUSE Team.ENEMY 1 ∈
      (update_construction 1 { buildings :=
        [mkBuilding 1800 200 BuildingType.HOUSE Team.ENEMY 1] }).buildings :=
  C10_construction.2.2.1 1 _ (by decide)
    (mkBuilding 1800 200 BuildingType.HOUSE Team.ENEMY 1) (by simp) rfl

/-! Claim C7. -/

theorem setup_flanking_gathered (castle : Option Building) (military : List Unit)
    (ai : AIState) :
    (setup_flanking_attack castle military ai).army_gathered = ai.army_gathered := by
  simp only [setup_flanking_attack]
  split
  · rfl
  · split
    · rfl
    · split <;> rfl

/-- The far-away knight of the C7 counterexample. -/
def C7knight : Unit := mkUnit 1900 1900 UnitType.KNIGHT Team.ENEMY 1

/-- The Easy AI state of the C7 counterexample. -/
def C7ai : AIState :=
  { difficulty := Difficulty.EASY, attack_target := some (100, 100) }

/-- C7 counterexample: on Easy difficulty _setup_attack marks the army
gathered unconditionally and with no rally point at all, although military
units exist, so no 70-percent-within-radius condition was evaluated or held
when the flag was set. -/
theorem C7_counterexample :
    (setup_attack none [C7knight] [] C7ai).army_gathered = true ∧
    (setup_attack none [C7knight] [] C7ai).rally_point = none ∧
    [C7knight] ≠ [] := by
  refine ⟨?_, ?_, by simp⟩ <;>
    simp [setup_attack, should_use_flanking, C7ai]

/-- C7 (amended): on Easy the gathered flag is set true unconditionally at
attack setup (with no rally point); on every other difficulty the setup
leaves it false, the gather phase sets it true only when _is_army_gathered
holds for the rally point, and with a rally point _is_army_gathered is
exactly: the military is nonempty and at least 70 percent of it is strictly
within distance 150 of the rally point. -/
theorem C7_gather_flag :
    (∀ (castle : Option Building) (mil emil : List Unit) (ai : AIState),
      ai.difficulty ≠ Difficulty.EASY →
      (setup_attack castle mil emil ai).army_gathered = false) ∧
    (∀ (rp : ℚ × ℚ) (military : List Unit),
      (is_army_gathered (some rp) military = true ↔
        military ≠ [] ∧ 7 * military.length ≤
          10 * (military.filter (fun u =>
            decide (u.distance_to rp.1 rp.2 < 150))).length)) ∧
    (∀ (g : Game) (ai : AIState), ai.army_gathered = false →
      (execute_gather_phase g ai).2.army_gathered = true →
      is_army_gathered ai.rally_point
        (military_units (execute_gather_phase g ai).1) = true) := by
  refine ⟨?_, ?_, ?_⟩
  · intro castle mil emil ai h
    simp only [setup_attack]
    split
    · rename_i hd
      exact absurd hd h
    · split
      · rw [setup_flanking_gathered]
      · rfl
  · intro rp military
    simp only [is_army_gathered]
    by_cases hm : military.isEmpty
    · simp [hm, List.isEmpty_iff.mp hm]
    · rw [if_neg hm]
      have hne : military ≠ [] := by
        simpa [List.isEmpty_iff] using hm
      have hiff : ∀ k : Nat, ((military.length : ℚ) * (7/10) ≤ (k : ℚ)) ↔
          7 * military.length ≤ 10 * k := by
        intro k
        rw [← Nat.cast_le (α := ℚ)]
        push_cast
        constructor <;> intro h <;> nlinarith
      simp [hne, hiff]
  · intro g ai h0 h1
    cases hrp : ai.rally_point with
    | none =>
      simp only [execute_gather_phase, hrp] at h1
      rw [h0] at h1
      exact absurd h1 (by simp)
    | some rp =>
      simp only [execute_gather_phase, hrp] at h1 ⊢
      split at h1
      · rename_i hcond
        rw [apply_ite Prod.fst, ite_self]
        exact hcond
      · rw [h0] at h1
        exact absurd h1 (by simp)

/-- C7 witness: setup on Normal leaves the gathered flag false. -/
theorem C7_gather_flag_witness :
    (setup_attack none [] [] { difficulty := Difficulty.NORMAL }).army_gathered = false :=
  C7_gather_flag.1 none [] [] { difficulty := Difficulty.NORMAL } (by decide)

/-! Claim C6. -/

theorem altSplit_length (l : List Unit) :
    (altSplit l).1.length + (altSplit l).2.length = l.length := by
  induction l with
  | nil => rfl
  | cons a rest ih =>
    simp only [altSplit, List.length_cons]
    omega

theorem filter_types_length (l : List Unit)
    (h : ∀ u ∈ l, u.unit_type ≠ UnitType.PEASANT) :
    (l.filter (fun u => u.unit_type = UnitType.CAVALRY)).length +
    (l.filter (fun u => u.unit_type = UnitType.KNIGHT)).length +
    (l.filter (fun u => u.unit_type = UnitType.CANNON)).length = l.length := by
  induction l with
  | nil => rfl
  | cons a rest ih =>
    have ha := h a (by simp)
    have hr : ∀ u ∈ rest, u.unit_type ≠ UnitType.PEASANT :=
      fun u hu => h u (by simp [hu])
    cases htype : a.unit_type
    · exact absurd htype ha
    all_goals
      simp only [List.filter_cons, htype]
      simp only [decide_eq_true_eq]
      have hrec := ih hr
      simp_all
      omega

/-- The two live left flankers of the C6 counterexample. -/
def C6u1 : Unit := mkUnit 100 100 UnitType.KNIGHT Team.ENEMY 1
/-- Second live left flanker of the C6 counterexample. -/
def C6u2 : Unit := mkUnit 120 100 UnitType.KNIGHT Team.ENEMY 2
/-- AI state whose right flank holds only dead or departed uids. -/
def C6ai : AIState :=
  { flanking_active := true, flank_units_left := [1, 2],
    flank_units_right := [7, 8] }

/-- C6 counterexample: the per-pass cleanup of _execute_flanking_attack
keeps flanking active whenever the total surviving flankers are at least 2,
so after the right flank dies out completely (its members no longer in the
unit store) flanking stays active with an empty right flank, contradicting
that an active flanking always has both flanks of size at least 2. -/
theorem C6_counterexample :
    (flank_cleanup [C6u1, C6u2] C6ai).flanking_active = true ∧
    (flank_cleanup [C6u1, C6u2] C6ai).flank_units_right.length = 0 := by
  constructor <;> decide

/-- C6 (amended): at setup (with an attack target and at least 6 military,
none of them peasants) flanking activates only with both flanks of size at
least 2, and when it aborts instead every unit is merged into the main
force with both flanks emptied; with fewer than 6 military it merely
deactivates; during execution the cleanup only maintains the weaker
condition total surviving flankers at least 2 (an individual flank may be
smaller, even empty), and the rest of the group maintenance never changes
the flag or the flanks. -/
theorem C6_flanking :
    (∀ (castle : Option Building) (military : List Unit) (ai : AIState) (tgt : ℚ × ℚ),
      ai.attack_target = some tgt → 6 ≤ military.length →
      (∀ u ∈ military, u.unit_type ≠ UnitType.PEASANT) →
      ((setup_flanking_attack castle military ai).flanking_active = true →
        2 ≤ (setup_flanking_attack castle military ai).flank_units_left.length ∧
        2 ≤ (setup_flanking_attack castle military ai).flank_units_right.length) ∧
      ((setup_flanking_attack castle military ai).flanking_active = false →
        (setup_flanking_attack castle military ai).flank_units_left = [] ∧
        (setup_flanking_attack castle military ai).flank_units_right = [] ∧
        (setup_flanking_attack castle military ai).main_force_units.length =
          military.length)) ∧
    (∀ (castle : Option Building) (military : List Unit) (ai : AIState) (tgt : ℚ × ℚ),
      ai.attack_target = some tgt → military.length < 6 →
      (setup_flanking_attack castle military ai).flanking_active = false) ∧
    (∀ (us : List Unit) (ai : AIState),
      (flank_cleanup us ai).flanking_active = true →
      ai.flanking_active = true ∧
      2 ≤ (flank_cleanup us ai).flank_units_left.length +
        (flank_cleanup us ai).flank_units_right.length) ∧
    (∀ (g : Game) (ai : AIState),
      (flank_group_maintenance g ai).flanking_active =
        (flank_cleanup g.units ai).flanking_active ∧
      (flank_group_maintenance g ai).flank_units_left =
        (flank_cleanup g.units ai).flank_units_left ∧
      (flank_group_maintenance g ai).flank_units_right =
        (flank_cleanup g.units ai).flank_units_right) := by
  refine ⟨?_, ?_, ?_, ?_⟩
  · intro castle military ai tgt htgt h6 htypes
    simp only [setup_flanking_attack, htgt]
    rw [if_neg (by omega)]
    have hcav := altSplit_length (military.filter (fun u => u.unit_type = UnitType.CAVALRY))
    have hpart := filter_types_length military htypes
    split
    · rename_i habort
      constructor
      · intro hact
        exact absurd hact (by simp)
      · intro _
        refine ⟨rfl, rfl, ?_⟩
        simp only [List.length_map, List.length_append]
        simp only [List.length_take, List.length_drop] at *
        omega
    · rename_i hok
      push_neg at hok
      constructor
      · intro _
        simp only [List.length_map]
        omega
      · intro hact
        exact absurd hact (by simp)
  · intro castle military ai tgt htgt h6
    simp only [setup_flanking_attack, htgt]
    rw [if_pos h6]
  · intro us ai
    simp only [flank_cleanup]
    split
    · intro h
      exact absurd h (by simp)
    · rename_i h
      intro hact
      dsimp only at hact ⊢
      exact ⟨hact, by omega⟩
  · intro g ai
    simp only [flank_group_maintenance]
    split
    · exact ⟨rfl, rfl, rfl⟩
    · exact ⟨rfl, rfl, rfl⟩

/-- The all-knight army of the C6 witness configuration. -/
def C6army : List Unit :=
  [mkUnit 0 0 UnitType.KNIGHT Team.ENEMY 1,
   mkUnit 0 0 UnitType.KNIGHT Team.ENEMY 2,
   mkUnit 0 0 UnitType.KNIGHT Team.ENEMY 3,
   mkUnit 0 0 UnitType.KNIGHT Team.ENEMY 4,
   mkUnit 0 0 UnitType.KNIGHT Team.ENEMY 5,
   mkUnit 0 0 UnitType.KNIGHT Team.ENEMY 6]

/-- The AI state of the C6 witness configuration. -/
def C6setupAI : AIState :=
  { attack_target := some (0, 0), flanking_active := false }

/-- C6 witness: the setup invariant applied to a concrete 6-knight army. -/
theorem C6_flanking_witness :
    (setup_flanking_attack none C6army C6setupAI).flanking_active = false ∨
    2 ≤ (setup_flanking_attack none C6army C6setupAI).flank_units_left.length := by
  cases hact : (setup_flanking_attack none C6army C6setupAI).flanking_active with
  | false => exact Or.inl rfl
  | true =>
    exact Or.inr
      ((C6_flanking.1 none C6army C6setupAI (0, 0) rfl (by decide) (by decide)).1 hact).1

/-! Claim C3. -/

theorem sqrtQ_zero : sqrtQ 0 = 0 := by
  have h := sqrtQ_natCast 0
  rw [show isqrt 0 = 0 from by decide] at h
  simpa using h

theorem qtrunc_intCast (n : Int) : qtrunc ((n : Int) : ℚ) = n := by
  unfold qtrunc
  rw [Rat.num_intCast, Rat.den_intCast]
  simp [Int.tdiv_one]

/-- The completed player house of the C3 counterexample (capacity 2). -/
def C3house : Building := mkBuilding 500 500 BuildingType.HOUSE Team.PLAYER 10

/-- A selected peasant of the C3 counterexample standing on the house. -/
def C3p (i : Nat) : Unit := mkUnit 500 500 UnitType.PEASANT Team.PLAYER i

/-- The C3 game: three selected peasants on a friendly completed house. -/
def C3game : Game :=
  { units := [C3p 1, C3p 2, C3p 3], buildings := [C3house],
    selected_units := [1, 2, 3] }

theorem C3house_rect : C3house.get_rect = ⟨460, 460, 80, 80⟩ := by
  simp only [Building.get_rect, C3house, mkBuilding, Building.get_size]
  have h2 : ((80 : Int) / 2 : Int) = 40 := by decide
  rw [h2]
  have hx : (500 : ℚ) - ((40 : Int) : ℚ) = ((460 : Int) : ℚ) := by push_cast; norm_num
  rw [hx, qtrunc_intCast]

/-- C3 counterexample: right-clicking a friendly completed house with three
selected peasants assigns all three (no capacity check in _issue_command);
once in work range all three count as working, so count_workers = 3 exceeds
max_workers = 2. -/
theorem C3_counterexample :
    C3house.get_max_workers = 2 ∧
    C3house.count_workers (update_workers (issue_command C3game 500 500)).units = 3 := by
  constructor
  · decide
  · norm_num +decide [issue_command, update_workers, C3game, C3p, C3house, mkUnit, mkBuilding,
      UNIT_STATS, List.find?, Rect.collidepoint, Building.get_rect, Building.get_size,
      Unit.get_rect, Unit.get_size, decide_False, decide_True,
      Building.count_workers, BUILDING_RESOURCE_GENERATION,
      qtrunc, Rat.num_ofNat, Rat.den_ofNat, Int.tdiv_one, mapUnit, applyCommand,
      Unit.assign_to_building, Unit.set_move_target, Unit.unassign_from_building,
      Unit.update_work_status, lookupB, Unit.distance_to_building, Unit.distance_to,
      sqrtQ_zero, WORKER_RANGE, BUILDING_STATS, List.filter]


theorem assignLoop_spec (b : Building) (mw : Nat) :
    ∀ (idle : List Nat) (units : List Unit) (cur : Nat),
      (mw ≤ cur → assignLoop b mw units idle cur = (units, idle)) ∧
      (assignLoop b mw units idle cur).2.length ≤ idle.length ∧
      cur + (idle.length - (assignLoop b mw units idle cur).2.length) ≤ max mw cur := by
  intro idle
  induction idle with
  | nil =>
    intro units cur
    refine ⟨fun _ => rfl, by simp [assignLoop], by simp [assignLoop]⟩
  | cons i rest ih =>
    intro units cur
    by_cases h : cur < mw
    · have hrec := ih (mapUnit units i (fun u => u.assign_to_building b)) (cur + 1)
      refine ⟨fun hle => absurd h (by omega), ?_, ?_⟩
      · simp only [assignLoop, if_pos h, List.length_cons]
        omega
      · simp only [assignLoop, if_pos h, List.length_cons]
        omega
    · refine ⟨fun _ => by simp [assignLoop, h], ?_, ?_⟩
      · simp [assignLoop, h]
      · simp [assignLoop, h]

/-- C3 (amended): count_workers can exceed max_workers (see the
counterexample: the player command interface assigns without any capacity
check), but overstaffing is production-neutral - the production multiplier
min(1, workers / capacity) never exceeds 1 - and the per-think AI
assignment loop stops at capacity: starting from a working count cur it
never assigns beyond max(max_workers, cur) in the cycle. -/
theorem C3_capacity :
    (∀ (b : Building) (units : List Unit),
      b.get_production_multiplier units ≤ 1) ∧
    (∀ (b : Building) (mw : Nat) (units : List Unit) (idle : List Nat) (cur : Nat),
      (mw ≤ cur → assignLoop b mw units idle cur = (units, idle)) ∧
      cur + (idle.length - (assignLoop b mw units idle cur).2.length) ≤ max mw cur) := by
  constructor
  · intro b units
    simp only [Building.get_production_multiplier]
    split
    · norm_num
    · exact min_le_left _ _
  · intro b mw units idle cur
    have h := assignLoop_spec b mw idle units cur
    exact ⟨h.1, h.2.2⟩

/-- C3 witness: a full building (capacity 2, working count already 2) takes
no further idle peasants from the AI loop, and its multiplier is capped. -/
theorem C3_capacity_witness :
    assignLoop C3house 2 [] [5, 6] 2 = ([], [5, 6]) ∧
    C3house.get_production_multiplier [] ≤ 1 :=
  ⟨(C3_capacity.2 C3house 2 [] [5, 6] 2).1 (by decide), C3_capacity.1 C3house []⟩

/-! Claim C8. -/

theorem findNearestOfBuilding_spec (b : Building) (radius : ℚ) :
    ∀ (us : List Unit) (acc : Option (Unit × ℚ)),
      (∀ q : Unit × ℚ, acc = some q → q.1.team ≠ b.team ∧
        q.2 = sqrtQ ((q.1.x - b.x) ^ 2 + (q.1.y - b.y) ^ 2) ∧ q.2 ≤ radius) →
      ∀ p : Unit × ℚ,
        us.foldl (fun (best : Option (Unit × ℚ)) o =>
          if o.team ≠ b.team then
            let d := sqrtQ ((o.x - b.x) ^ 2 + (o.y - b.y) ^ 2)
            if decide (d ≤ radius) &&
                (match best with | none => true | some q => decide (d < q.2)) then
              some (o, d)
            else best
          else best) acc = some p →
        (p.1.team ≠ b.team ∧
          p.2 = sqrtQ ((p.1.x - b.x) ^ 2 + (p.1.y - b.y) ^ 2) ∧ p.2 ≤ radius) ∧
        (∀ u ∈ us, u.team ≠ b.team →
          sqrtQ ((u.x - b.x) ^ 2 + (u.y - b.y) ^ 2) ≤ radius →
          p.2 ≤ sqrtQ ((u.x - b.x) ^ 2 + (u.y - b.y) ^ 2)) ∧
        (∀ q : Unit × ℚ, acc = some q → p.2 ≤ q.2) := by
  intro us
  induction us with
  | nil =>
    intro acc hacc p hp
    simp only [List.foldl_nil] at hp
    refine ⟨hacc p hp, by simp, ?_⟩
    intro q hq
    rw [hq, Option.some.injEq] at hp
    rw [hp]
  | cons a rest ih =>
    intro acc hacc p hp
    rw [List.foldl_cons] at hp
    by_cases hteam : a.team ≠ b.team
    · rw [if_pos hteam] at hp
      simp only [] at hp
      rcases acc with _ | q0
      · split at hp
        next hupd =>
          rw [Bool.and_true, decide_eq_true_eq] at hupd
          have hacc' : ∀ q : Unit × ℚ,
              (some (a, sqrtQ ((a.x - b.x) ^ 2 + (a.y - b.y) ^ 2)) : Option (Unit × ℚ)) =
                some q →
              q.1.team ≠ b.team ∧
              q.2 = sqrtQ ((q.1.x - b.x) ^ 2 + (q.1.y - b.y) ^ 2) ∧ q.2 ≤ radius := by
            intro q hq
            rw [Option.some.injEq] at hq
            rw [← hq]
            exact ⟨hteam, rfl, hupd⟩
          have hres := ih _ hacc' p hp
          refine ⟨hres.1, ?_, by simp⟩
          intro u hu hut hur
          rcases List.mem_cons.mp hu with hua | hur2
          · subst hua
            exact hres.2.2 _ rfl
          · exact hres.2.1 u hur2 hut hur
        next hupd0 =>
          have hupd : ¬ sqrtQ ((a.x - b.x) ^ 2 + (a.y - b.y) ^ 2) ≤ radius := by
            simpa using hupd0
          have hres := ih _ hacc p hp
          refine ⟨hres.1, ?_, by simp⟩
          intro u hu hut hur
          rcases List.mem_cons.mp hu with hua | hur2
          · subst hua
            exact absurd hur hupd
          · exact hres.2.1 u hur2 hut hur
      · have hq0 := hacc q0 rfl
        split at hp
        next hupd =>
          rw [Bool.and_eq_true, decide_eq_true_eq, decide_eq_true_eq] at hupd
          have hacc' : ∀ q : Unit × ℚ,
              (some (a, sqrtQ ((a.x - b.x) ^ 2 + (a.y - b.y) ^ 2)) : Option (Unit × ℚ)) =
                some q →
              q.1.team ≠ b.team ∧
              q.2 = sqrtQ ((q.1.x - b.x) ^ 2 + (q.1.y - b.y) ^ 2) ∧ q.2 ≤ radius := by
            intro q hq
            rw [Option.some.injEq] at hq
            rw [← hq]
            exact ⟨hteam, rfl, hupd.1⟩
          have hres := ih _ hacc' p hp
          refine ⟨hres.1, ?_, ?_⟩
          · intro u hu hut hur
            rcases List.mem_cons.mp hu with hua | hur2
            · subst hua
              exact hres.2.2 _ rfl
            · exact hres.2.1 u hur2 hut hur
          · intro q hq
            rw [Option.some.injEq] at hq
            rw [← hq]
            exact le_trans (hres.2.2 _ rfl) (le_of_lt hupd.2)
        next hupd0 =>
          have hupd : sqrtQ ((a.x - b.x) ^ 2 + (a.y - b.y) ^ 2) ≤ radius →
              q0.2 ≤ sqrtQ ((a.x - b.x) ^ 2 + (a.y - b.y) ^ 2) := by
            simpa using hupd0
          have hres := ih _ hacc p hp
          refine ⟨hres.1, ?_, hres.2.2⟩
          intro u hu hut hur
          rcases List.mem_cons.mp hu with hua | hur2
          · subst hua
            exact le_trans (hres.2.2 q0 rfl) (hupd hur)
          · exact hres.2.1 u hur2 hut hur
    · rw [if_neg hteam] at hp
      have hres := ih _ hacc p hp
      refine ⟨hres.1, ?_, hres.2.2⟩
      intro u hu hut hur
      rcases List.mem_cons.mp hu with hua | hur2
      · subst hua
        exact absurd hut hteam
      · exact hres.2.1 u hur2 hut hur

/-- C8: a completed tower with fewer than 2 working assigned peasants never
fires regardless of elapsed time; a spawn implies the cooldown had elapsed
and at least 2 workers, stamps the tower with last_attack = now so that no
further spawn happens within the cooldown interval, targets exactly the
nearest-scan result, and marks the projectile probabilistic; the nearest
scan returns an enemy within range no farther than any enemy in range; and
the hit roll is consumed only at impact: a tower projectile whose impact
roll fails leaves the state untouched, while a successful roll applies the
damage to the live target at that moment (removing it if it dies). -/
theorem C8_tower :
    (∀ (now : ℚ) (units : List Unit) (b : Building),
      b.building_type = BuildingType.TOWER → b.completed = true →
      b.count_workers units < 2 → towerTryFire now units b = none) ∧
    (∀ (now : ℚ) (units : List Unit) (b : Building) (p : Projectile) (b' : Building),
      towerTryFire now units b = some (p, b') →
      TOWER_COOLDOWN ≤ now - b.last_attack ∧
      2 ≤ b.count_workers units ∧
      b' = { b with last_attack := now } ∧
      p.is_tower_projectile = true ∧
      p.target_unit = (findNearestEnemyOfBuilding units b TOWER_RANGE).map (fun t => t.uid) ∧
      (∀ now₂ : ℚ, now₂ - now < TOWER_COOLDOWN → towerTryFire now₂ units b' = none)) ∧
    (∀ (units : List Unit) (b : Building) (t : Unit),
      findNearestEnemyOfBuilding units b TOWER_RANGE = some t →
      t.team ≠ b.team ∧
      sqrtQ ((t.x - b.x) ^ 2 + (t.y - b.y) ^ 2) ≤ TOWER_RANGE ∧
      (∀ u ∈ units, u.team ≠ b.team →
        sqrtQ ((u.x - b.x) ^ 2 + (u.y - b.y) ^ 2) ≤ TOWER_RANGE →
        sqrtQ ((t.x - b.x) ^ 2 + (t.y - b.y) ^ 2) ≤
          sqrtQ ((u.x - b.x) ^ 2 + (u.y - b.y) ^ 2))) ∧
    (∀ (roll : ℚ) (g : Game) (p : Projectile) (ti : Nat) (t : Unit),
      p.target_unit = some ti → lookupU g.units ti = some t → t.is_alive = true →
      p.is_tower_projectile = true →
      TOWER_HIT_CHANCE ≤ roll → projectileImpact roll g p = g) ∧
    (∀ (roll : ℚ) (g : Game) (p : Projectile) (ti : Nat) (t : Unit),
      p.target_unit = some ti → lookupU g.units ti = some t → t.is_alive = true →
      p.is_tower_projectile = true → roll < TOWER_HIT_CHANCE →
      (projectileImpact roll g p).units =
        (if t.health - p.damage ≤ 0 then
          removeDeadClear (mapUnit g.units t.uid (fun v => v.take_damage p.damage)) t.uid
        else mapUnit g.units t.uid (fun v => v.take_damage p.damage))) := by
  refine ⟨?_, ?_, ?_, ?_, ?_⟩
  · intro now units b htype hcomp hcount
    simp only [towerTryFire]
    rw [if_neg (by simp [htype, hcomp]), if_pos hcount]
  · intro now units b p b' hfire
    simp only [towerTryFire] at hfire
    split at hfire
    next => exact absurd hfire (by simp)
    next hguard =>
      split at hfire
      next => exact absurd hfire (by simp)
      next hcount =>
        split at hfire
        next => exact absurd hfire (by simp)
        next hcool =>
          split at hfire
          next => exact absurd hfire (by simp)
          next t hfound =>
            rw [Option.some.injEq, Prod.mk.injEq] at hfire
            refine ⟨le_of_not_lt hcool, le_of_not_lt hcount, hfire.2.symm, ?_, ?_, ?_⟩
            · rw [← hfire.1]
            · rw [← hfire.1, hfound]
              rfl
            · intro now₂ hnow₂
              rw [← hfire.2]
              simp only [towerTryFire]
              rw [if_neg (by simpa using hguard)]
              rw [if_neg (by simpa using hcount)]
              rw [if_pos (by simpa using hnow₂)]
  · intro units b t hfound
    simp only [findNearestEnemyOfBuilding] at hfound
    rw [Option.map_eq_some'] at hfound
    obtain ⟨p, hp, hpt⟩ := hfound
    have hspec := findNearestOfBuilding_spec b TOWER_RANGE units none (by simp) p hp
    subst hpt
    refine ⟨hspec.1.1, ?_, ?_⟩
    · rw [← hspec.1.2.1]
      exact hspec.1.2.2
    · intro u hu hut hur
      rw [← hspec.1.2.1]
      exact hspec.2.1 u hu hut hur
  · intro roll g p ti t hti hlk halive htower hroll
    have hmiss : (if p.is_tower_projectile = true then decide (roll < TOWER_HIT_CHANCE)
        else true) = false := by
      rw [if_pos htower]
      exact decide_eq_false (not_lt.mpr hroll)
    simp only [projectileImpact, hti, Option.some_bind, hlk, halive, if_true, hmiss]
    simp
  · intro roll g p ti t hti hlk halive htower hroll
    have hhit : (if p.is_tower_projectile = true then decide (roll < TOWER_HIT_CHANCE)
        else true) = true := by
      rw [if_pos htower]
      exact decide_eq_true hroll
    simp only [projectileImpact, hti, Option.some_bind, hlk, halive, if_true, hhit]
    simp only [Unit.take_damage]
    split
    next => rfl
    next => rfl

/-- The completed tower of the C8 witness configuration. -/
def C8tower : Building := mkBuilding 500 500 BuildingType.TOWER Team.PLAYER 1

/-- A working peasant staffing the C8 tower. -/
def C8w (i : Nat) : Unit :=
  { mkUnit 480 500 UnitType.PEASANT Team.PLAYER i with
    assigned_building := some 1, is_working := true }

/-- The single enemy knight in range of the C8 tower (distance 100). -/
def C8enemy : Unit := mkUnit 500 600 UnitType.KNIGHT Team.ENEMY 5

/-- Unit store of the C8 witness configuration. -/
def C8units : List Unit := [C8w 2, C8w 3, C8enemy]

/-- The projectile the C8 tower spawns at the knight. -/
def C8proj : Projectile :=
  { x := 500, y := 470, target_x := 500, target_y := 600, speed := 350,
    damage := TOWER_ATTACK, target_unit := some 5, team := Team.PLAYER,
    size := 4, is_tower_projectile := true }

theorem C8_fire_eval :
    towerTryFire 10 C8units C8tower = some (C8proj, { C8tower with last_attack := 10 }) := by
  have hs : sqrtQ (10000 : ℚ) = 100 := by
    rw [show ((10000 : ℚ)) = ((10000 : Nat) : ℚ) by norm_num, sqrtQ_natCast]
    norm_num [show isqrt 10000 = 100 from by decide]
  norm_num +decide [towerTryFire, C8units, C8tower, C8w, C8enemy, C8proj, mkUnit,
    mkBuilding, UNIT_STATS, BUILDING_STATS, Building.count_workers, List.filter,
    findNearestEnemyOfBuilding, List.foldl, hs, TOWER_RANGE, TOWER_COOLDOWN,
    TOWER_ATTACK]

/-- C8 witness: the concrete staffed tower fires, so the spawn hypotheses of
the claim theorem are satisfiable; the conclusions are instantiated there. -/
theorem C8_tower_witness :
    TOWER_COOLDOWN ≤ (10 : ℚ) - C8tower.last_attack ∧
    2 ≤ C8tower.count_workers C8units ∧
    C8proj.is_tower_projectile = true :=
  have h := C8_tower.2.1 10 C8units C8tower C8proj { C8tower with last_attack := 10 }
    C8_fire_eval
  ⟨h.1, h.2.1, h.2.2.2.1⟩

/-! Claim C2. -/

/-- The starving peasant of the C2 counterexample (health 5, one starvation
hit from death). -/
def C2unit : Unit :=
  { mkUnit 500 500 UnitType.PEASANT Team.PLAYER 1 with health := 5 }

/-- The C2 game: one selected peasant, no food, a food tick due. -/
def C2game : Game :=
  { units := [C2unit], player_resources := { gold := 500, food := 0, wood := 300 },
    food_timer := 10, selected_units := [1] }

/-- C2 counterexample: during this tick the peasant starves to health 0, yet
at the end of the very same tick it is still in the unit list (starvation
damage lands in the food-consumption phase, after the unit-update removal
pass), and it is also still held by the selection list - so a unit whose
health reached 0 during the tick was neither removed that tick nor released
by the other collections. -/
theorem C2_counterexample :
    ((tick 100 (1/60) (fun _ => 1) (fun _ => 1) C2game).units.map
      (fun u => (u.uid, u.health))) = [(1, 0)] ∧
    (tick 100 (1/60) (fun _ => 1) (fun _ => 1) C2game).selected_units = [1] := by
  norm_num +decide [tick, update_units, processUnit, unitCombatStep, autoAcquireStep,
    attackMoveResumeStep, deadRemovalStep, lookupU, findNearestEnemyInRange,
    update_unit_collisions, collideIndex, pushPair, clampPos, update_workers,
    Unit.update_work_status, Unit.unassign_from_building, lookupB,
    update_construction, update_tower_attacks, update_projectiles,
    update_resources, update_food_consumption, foodConsumptionFor,
    Unit.take_damage, update_healing, healTeam, check_game_over, mapUnit,
    C2game, C2unit, mkUnit, UNIT_STATS, List.range, List.foldl, List.filter,
    List.find?, FOOD_CONSUMPTION_INTERVAL, FOOD_PER_UNIT, STARVATION_DAMAGE,
    RESOURCE_TICK_INTERVAL, HEAL_INTERVAL, MAP_WIDTH, MAP_HEIGHT,
    removeDeadClear, Unit.is_alive, Unit.needs_healing, List.get?, List.set]

/-- The uid list of a unit store. -/
def unit_uids (us : List Unit) : List Nat := us.map (fun u => u.uid)

/-- Health never grows and uids come from the source store: each output unit
has a source unit with the same uid and at least its health. -/
def HealthSub (us' us : List Unit) : Prop :=
  ∀ u' ∈ us', ∃ u ∈ us, u'.uid = u.uid ∧ u'.health ≤ u.health

theorem HealthSub_refl (us : List Unit) : HealthSub us us :=
  fun u' hu' => ⟨u', hu', rfl, le_refl _⟩

theorem HealthSub_trans {a b c : List Unit} (h1 : HealthSub a b) (h2 : HealthSub b c) :
    HealthSub a c := by
  intro u' hu'
  obtain ⟨u, hu, he, hh⟩ := h1 u' hu'
  obtain ⟨w, hw, he2, hh2⟩ := h2 u hu
  exact ⟨w, hw, he.trans he2, hh.trans hh2⟩

theorem lookupU_mem {us : List Unit} {i : Nat} {u : Unit} (h : lookupU us i = some u) :
    u ∈ us ∧ u.uid = i := by
  refine ⟨List.mem_of_find?_eq_some h, ?_⟩
  have := List.find?_some h
  simpa using this

theorem mapUnit_mono {us : List Unit} {i : Nat} {f : Unit → Unit}
    (hf : ∀ u, u.uid = i → (f u).uid = u.uid ∧ (f u).health ≤ u.health) :
    unit_uids (mapUnit us i f) = unit_uids us ∧ HealthSub (mapUnit us i f) us := by
  constructor
  · unfold unit_uids mapUnit
    rw [List.map_map]
    apply List.map_congr_left
    intro u _
    by_cases hu : u.uid = i
    · simp [hu, (hf u hu).1]
    · simp [hu]
  · intro u' hu'
    unfold mapUnit at hu'
    obtain ⟨u, hu, he⟩ := List.mem_map.mp hu'
    by_cases hui : u.uid = i
    · rw [if_pos hui] at he
      exact ⟨u, hu, by rw [← he, (hf u hui).1], by rw [← he]; exact (hf u hui).2⟩
    · rw [if_neg hui] at he
      exact ⟨u, hu, by rw [he], by rw [he]⟩

theorem mapUnit_const_mono {us : List Unit} {i : Nat} {u2 : Unit}
    (hu : u2.uid = i) (hex : ∃ u ∈ us, u.uid = u2.uid ∧ u2.health ≤ u.health) :
    unit_uids (mapUnit us i (fun _ => u2)) = unit_uids us ∧
    HealthSub (mapUnit us i (fun _ => u2)) us := by
  constructor
  · unfold unit_uids mapUnit
    rw [List.map_map]
    apply List.map_congr_left
    intro u _
    by_cases hui : u.uid = i
    · simp [hui, hu]
    · simp [hui]
  · intro u' hu'
    unfold mapUnit at hu'
    obtain ⟨u, humem, he⟩ := List.mem_map.mp hu'
    by_cases hui : u.uid = i
    · rw [if_pos hui] at he
      obtain ⟨w, hw, hwe, hwh⟩ := hex
      exact ⟨w, hw, by rw [← he, hwe], by rw [← he]; exact hwh⟩
    · rw [if_neg hui] at he
      exact ⟨u, humem, by rw [he], by rw [he]⟩

theorem map_mono {us : List Unit} {f : Unit → Unit}
    (hf : ∀ u, (f u).uid = u.uid ∧ (f u).health = u.health) :
    unit_uids (us.map f) = unit_uids us ∧ HealthSub (us.map f) us := by
  constructor
  · unfold unit_uids
    rw [List.map_map]
    apply List.map_congr_left
    intro u _
    simp [(hf u).1]
  · intro u' hu'
    obtain ⟨u, hu, he⟩ := List.mem_map.mp hu'
    exact ⟨u, hu, by rw [← he, (hf u).1], by rw [← he, (hf u).2]⟩

theorem meleeDamage_nonneg (a d : Int) {j : ℚ} (hj : 0 ≤ j) :
    0 ≤ meleeDamage a d j := by
  unfold meleeDamage
  apply qtrunc_nonneg
  apply mul_nonneg _ hj
  have h1 : (1 : Int) ≤ max 1 (a - d.fdiv 2) := le_max_left _ _
  exact_mod_cast le_trans zero_le_one h1

theorem move_towards_fields (u : Unit) (tx ty dt m : ℚ) :
    (u.move_towards tx ty dt m).uid = u.uid ∧
    (u.move_towards tx ty dt m).health = u.health := by
  simp only [Unit.move_towards]
  split <;> exact ⟨rfl, rfl⟩

theorem do_attack_mono {jit : Nat → ℚ} (hj : ∀ n, 0 ≤ jit n) (g : Game)
    (a t : Unit) :
    unit_uids (do_attack jit g a t).units = unit_uids g.units ∧
    HealthSub (do_attack jit g a t).units g.units := by
  simp only [do_attack]
  split
  · exact ⟨rfl, HealthSub_refl _⟩
  · exact mapUnit_mono (fun u _ => ⟨rfl, by
      have := meleeDamage_nonneg a.attack t.defense (hj a.uid)
      dsimp only [Unit.take_damage]
      omega⟩)

theorem apply_building_damage_mono (g : Game) (i : Nat) (d : Int) :
    unit_uids (apply_building_damage g i d).units = unit_uids g.units ∧
    HealthSub (apply_building_damage g i d).units g.units := by
  simp only [apply_building_damage]
  split
  · split
    · exact map_mono (fun u => by split <;> exact ⟨rfl, rfl⟩)
    · exact ⟨rfl, HealthSub_refl _⟩
  · exact ⟨rfl, HealthSub_refl _⟩

theorem do_attack_building_mono (g : Game) (a : Unit) (b : Building) :
    unit_uids (do_attack_building g a b).units = unit_uids g.units ∧
    HealthSub (do_attack_building g a b).units g.units := by
  simp only [do_attack_building]
  split
  · exact apply_building_damage_mono _ _ _
  · split
    · exact ⟨rfl, HealthSub_refl _⟩
    · exact apply_building_damage_mono _ _ _

theorem unitCombatStep_mono {now dt : ℚ} {jit : Nat → ℚ} (hj : ∀ n, 0 ≤ jit n)
    (g : Game) (i : Nat) :
    unit_uids (unitCombatStep now dt jit g i).units = unit_uids g.units ∧
    HealthSub (unitCombatStep now dt jit g i).units g.units := by
  simp only [unitCombatStep]
  split
  · exact ⟨rfl, HealthSub_refl _⟩
  · split
    · split
      · split
        · split
          · constructor
            · refine Eq.trans (mapUnit_mono ?_).1 (do_attack_mono hj g _ _).1
              exact fun u _ => ⟨rfl, le_refl _⟩
            · refine HealthSub_trans (mapUnit_mono ?_).2 (do_attack_mono hj g _ _).2
              exact fun u _ => ⟨rfl, le_refl _⟩
          · exact ⟨rfl, HealthSub_refl _⟩
        · refine mapUnit_mono ?_
          exact fun u _ =>
            ⟨(move_towards_fields _ _ _ _ _).1, le_of_eq (move_towards_fields _ _ _ _ _).2⟩
      · split
        · split
          · split
            · constructor
              · refine Eq.trans (mapUnit_mono ?_).1 (do_attack_building_mono g _ _).1
                exact fun u _ => ⟨rfl, le_refl _⟩
              · refine HealthSub_trans (mapUnit_mono ?_).2 (do_attack_building_mono g _ _).2
                exact fun u _ => ⟨rfl, le_refl _⟩
            · exact ⟨rfl, HealthSub_refl _⟩
          · refine mapUnit_mono ?_
            exact fun u _ =>
              ⟨(move_towards_fields _ _ _ _ _).1, le_of_eq (move_towards_fields _ _ _ _ _).2⟩
        · refine mapUnit_mono ?_
          exact fun u _ =>
            ⟨(move_towards_fields _ _ _ _ _).1, le_of_eq (move_towards_fields _ _ _ _ _).2⟩
    · exact ⟨rfl, HealthSub_refl _⟩

theorem autoAcquireStep_mono (g : Game) (i : Nat) :
    unit_uids (autoAcquireStep g i).units = unit_uids g.units ∧
    HealthSub (autoAcquireStep g i).units g.units := by
  simp only [autoAcquireStep]
  split
  · exact ⟨rfl, HealthSub_refl _⟩
  · split
    · split
      · exact mapUnit_mono (fun u _ => ⟨rfl, le_refl _⟩)
      · split
        · split
          · exact mapUnit_mono (fun u _ => ⟨rfl, le_refl _⟩)
          · exact ⟨rfl, HealthSub_refl _⟩
        · exact ⟨rfl, HealthSub_refl _⟩
    · exact ⟨rfl, HealthSub_refl _⟩

theorem attackMoveResumeStep_mono (g : Game) (i : Nat) :
    unit_uids (attackMoveResumeStep g i).units = unit_uids g.units ∧
    HealthSub (attackMoveResumeStep g i).units g.units := by
  simp only [attackMoveResumeStep]
  split
  · exact ⟨rfl, HealthSub_refl _⟩
  · rename_i u hlk
    obtain ⟨humem, huid⟩ := lookupU_mem hlk
    split
    · split
      · apply mapUnit_const_mono
        · by_cases h1 : u.target_x = none <;> simp [h1] <;> split <;> exact huid
        · refine ⟨u, humem, ?_, ?_⟩
          · by_cases h1 : u.target_x = none <;> simp [h1] <;> split <;> rfl
          · by_cases h1 : u.target_x = none <;> simp [h1] <;> split <;> rfl
      · exact ⟨rfl, HealthSub_refl _⟩
    · exact ⟨rfl, HealthSub_refl _⟩

theorem eraseP_uid_ne {us : List Unit} {d : Nat} (hnd : (unit_uids us).Nodup) :
    ∀ v ∈ us.eraseP (fun u => u.uid == d), v.uid ≠ d := by
  induction us with
  | nil => intro v hv; simp [List.eraseP] at hv
  | cons a rest ih =>
    intro v hv
    have hnd' : a.uid ∉ unit_uids rest ∧ (unit_uids rest).Nodup := by
      have := hnd
      rw [unit_uids, List.map_cons, List.nodup_cons] at this
      exact this
    rw [List.eraseP_cons] at hv
    by_cases ha : a.uid = d
    · have hb : (a.uid == d) = true := by simpa using ha
      rw [hb, cond_true] at hv
      intro he
      exact hnd'.1 (by rw [ha, ← he]; exact List.mem_map_of_mem _ hv)
    · have hb : (a.uid == d) = false := by simpa using ha
      rw [hb, cond_false] at hv
      rcases List.mem_cons.mp hv with h | h
      · rw [h]; exact ha
      · exact ih hnd'.2 v h

theorem removeDeadClear_uid_ne {us : List Unit} {d : Nat}
    (hnd : (unit_uids us).Nodup) : d ∉ unit_uids (removeDeadClear us d) := by
  intro hmem
  rw [removeDeadClear, unit_uids, List.map_map] at hmem
  obtain ⟨v, hv, he⟩ := List.mem_map.mp hmem
  apply eraseP_uid_ne hnd v hv
  revert he
  dsimp only [Function.comp]
  split <;> exact fun he => he

theorem removeDeadClear_target_ne (us : List Unit) (i : Nat) :
    ∀ v ∈ removeDeadClear us i, v.target_unit ≠ some i := by
  intro v hv
  rw [removeDeadClear] at hv
  obtain ⟨w, hw, he⟩ := List.mem_map.mp hv
  revert he
  split
  · intro he; rw [← he]; simp
  · rename_i hne; intro he; rw [← he]; exact hne

theorem removeDeadClear_mono (us : List Unit) (i : Nat) :
    (unit_uids (removeDeadClear us i)).Sublist (unit_uids us) ∧
    HealthSub (removeDeadClear us i) us := by
  constructor
  · rw [removeDeadClear, unit_uids, List.map_map, unit_uids]
    have h1 : List.map ((fun u => u.uid) ∘ fun v =>
        if v.target_unit = some i then { v with target_unit := none } else v)
        (us.eraseP (fun u => u.uid == i)) =
        List.map (fun u => u.uid) (us.eraseP (fun u => u.uid == i)) := by
      apply List.map_congr_left
      intro a _
      dsimp only [Function.comp]
      split <;> rfl
    rw [h1]
    exact (List.eraseP_sublist us).map _
  · intro u' hu'
    rw [removeDeadClear] at hu'
    obtain ⟨w, hw, he⟩ := List.mem_map.mp hu'
    have hwmem : w ∈ us := (List.eraseP_sublist us).subset hw
    refine ⟨w, hwmem, ?_, ?_⟩ <;> rw [← he] <;> split <;> rfl

theorem deadRemovalStep_mono (g : Game) (i : Nat) :
    (unit_uids (deadRemovalStep g i).units).Sublist (unit_uids g.units) ∧
    HealthSub (deadRemovalStep g i).units g.units := by
  unfold deadRemovalStep
  split
  · exact ⟨List.Sublist.refl _, HealthSub_refl _⟩
  · split
    · exact ⟨List.Sublist.refl _, HealthSub_refl _⟩
    · exact removeDeadClear_mono _ _

theorem preSteps_mono {now dt : ℚ} {jit : Nat → ℚ} (hj : ∀ n, 0 ≤ jit n)
    (g : Game) (i : Nat) :
    unit_uids (attackMoveResumeStep (autoAcquireStep (unitCombatStep now dt jit g i) i) i).units
      = unit_uids g.units ∧
    HealthSub (attackMoveResumeStep (autoAcquireStep (unitCombatStep now dt jit g i) i) i).units
      g.units := by
  obtain ⟨e1, s1⟩ := unitCombatStep_mono hj g i
  obtain ⟨e2, s2⟩ := autoAcquireStep_mono (unitCombatStep now dt jit g i) i
  obtain ⟨e3, s3⟩ :=
    attackMoveResumeStep_mono (autoAcquireStep (unitCombatStep now dt jit g i) i) i
  exact ⟨(e3.trans e2).trans e1, HealthSub_trans s3 (HealthSub_trans s2 s1)⟩

theorem processUnit_mono {now dt : ℚ} {jit : Nat → ℚ} (hj : ∀ n, 0 ≤ jit n)
    (g : Game) (i : Nat) :
    (unit_uids (processUnit now dt jit g i).units).Sublist (unit_uids g.units) ∧
    HealthSub (processUnit now dt jit g i).units g.units := by
  obtain ⟨e, s⟩ := preSteps_mono hj g i
  obtain ⟨l4, s4⟩ := deadRemovalStep_mono
    (attackMoveResumeStep (autoAcquireStep (unitCombatStep now dt jit g i) i) i) i
  rw [e] at l4
  exact ⟨l4, HealthSub_trans s4 s⟩

/-- A uid whose every carrier in the store is dead. -/
def DeadAt (d : Nat) (us : List Unit) : Prop :=
  ∀ u ∈ us, u.uid = d → u.health ≤ 0

theorem DeadAt_of_HealthSub {d : Nat} {us' us : List Unit}
    (h : HealthSub us' us) (hd : DeadAt d us) : DeadAt d us' := by
  intro u' hu' he
  obtain ⟨u, hu, heq, hh⟩ := h u' hu'
  exact le_trans hh (hd u hu (heq.symm.trans he))

theorem deadRemovalStep_kills {g : Game} {d : Nat}
    (hnd : (unit_uids g.units).Nodup) (hmem : d ∈ unit_uids g.units)
    (hdead : DeadAt d g.units) :
    d ∉ unit_uids (deadRemovalStep g d).units := by
  have hmem' : d ∈ g.units.map (fun u => u.uid) := hmem
  obtain ⟨w, hw, hweq⟩ := List.mem_map.mp hmem'
  have hsome : (lookupU g.units d).isSome := by
    rw [lookupU, List.find?_isSome]
    exact ⟨w, hw, by simpa using hweq⟩
  obtain ⟨w', hlk⟩ := Option.isSome_iff_exists.mp hsome
  obtain ⟨hw'mem, hw'eq⟩ := lookupU_mem hlk
  have hw'dead : w'.health ≤ 0 := hdead w' hw'mem hw'eq
  have hnotalive : ¬ (w'.is_alive = true) := by
    simp only [Unit.is_alive, decide_eq_true_eq, not_lt]
    exact hw'dead
  unfold deadRemovalStep
  split
  · rename_i heq
    rw [hlk] at heq
    exact absurd heq (by simp)
  · rename_i u heq
    rw [hlk] at heq
    injection heq with h
    subst h
    rw [if_neg hnotalive]
    exact removeDeadClear_uid_ne hnd

theorem processUnit_kills {now dt : ℚ} {jit : Nat → ℚ} (hj : ∀ n, 0 ≤ jit n)
    {g : Game} {d : Nat} (hnd : (unit_uids g.units).Nodup)
    (hmem : d ∈ unit_uids g.units) (hdead : DeadAt d g.units) :
    d ∉ unit_uids (processUnit now dt jit g d).units := by
  obtain ⟨e, s⟩ := preSteps_mono hj g d
  exact deadRemovalStep_kills (e ▸ hnd) (e ▸ hmem) (DeadAt_of_HealthSub s hdead)

theorem foldl_processUnit_not_mem {now dt : ℚ} {jit : Nat → ℚ}
    (hj : ∀ n, 0 ≤ jit n) (d : Nat) :
    ∀ (l : List Nat) (g : Game), (unit_uids g.units).Nodup →
      ((DeadAt d g.units ∧ d ∈ l) ∨ d ∉ unit_uids g.units) →
      d ∉ unit_uids (l.foldl (processUnit now dt jit) g).units := by
  intro l
  induction l with
  | nil =>
    intro g _ hcase
    rcases hcase with ⟨_, hd⟩ | hnot
    · exact absurd hd (List.not_mem_nil d)
    · simpa using hnot
  | cons i rest ih =>
    intro g hnd hcase
    rw [List.foldl_cons]
    obtain ⟨lsub, hsub⟩ := processUnit_mono hj g i
    have hnd' : (unit_uids (processUnit now dt jit g i).units).Nodup :=
      List.Nodup.sublist lsub hnd
    rcases hcase with ⟨hdead, hdl⟩ | hnot
    · by_cases hmem : d ∈ unit_uids g.units
      · by_cases hid : i = d
        · subst hid
          exact ih _ hnd' (Or.inr (processUnit_kills hj hnd hmem hdead))
        · have hdl' : d ∈ rest := by
            rcases List.mem_cons.mp hdl with h | h
            · exact absurd h.symm hid
            · exact h
          exact ih _ hnd' (Or.inl ⟨DeadAt_of_HealthSub hsub hdead, hdl'⟩)
      · exact ih _ hnd' (Or.inr (fun hc => hmem (lsub.subset hc)))
    · exact ih _ hnd' (Or.inr (fun hc => hnot (lsub.subset hc)))

theorem update_units_removes {now dt : ℚ} {jit : Nat → ℚ} (g : Game)
    (hj : ∀ n, 0 ≤ jit n) (hnd : (unit_uids g.units).Nodup) :
    ∀ u ∈ g.units, u.health ≤ 0 →
      u.uid ∉ unit_uids (update_units now dt jit g).units := by
  intro u hu hdead
  unfold update_units
  apply foldl_processUnit_not_mem hj u.uid _ g hnd
  left
  constructor
  · intro v hv he
    have hvu : v = u := List.inj_on_of_nodup_map hnd hv hu he
    rw [hvu]
    exact hdead
  · exact List.mem_map_of_mem _ hu

/-- C2 (amended): a dead unit is removed at its own visit in the
_update_units pass, not merely at some point "within the tick". For any
pass with nonnegative damage jitters over a store with distinct uids,
every unit already dead when the pass starts is absent from the unit list
when the pass ends, and removeDeadClear leaves no surviving unit-target
reference to the removed uid. Deaths after a unit's own visit (starvation
in the food phase, kills by later-visited attackers) persist into the next
tick's pass, and selection lists are never purged, as C2_counterexample
shows concretely. -/
theorem C2_removal (now dt : ℚ) (jit : Nat → ℚ) (g : Game)
    (hj : ∀ n, 0 ≤ jit n) (hnd : (unit_uids g.units).Nodup) :
    (∀ u ∈ g.units, u.health ≤ 0 →
      u.uid ∉ unit_uids (update_units now dt jit g).units) ∧
    (∀ (us : List Unit) (i : Nat), ∀ v ∈ removeDeadClear us i,
      v.target_unit ≠ some i) :=
  ⟨update_units_removes g hj hnd, fun us i => removeDeadClear_target_ne us i⟩

/-- Concrete dead peasant for the C2 witness. -/
def C2Wunit : Unit :=
  { mkUnit 100 100 UnitType.PEASANT Team.PLAYER 3 with health := 0 }

/-- One-unit game for the C2 witness. -/
def C2Wgame : Game := { units := [C2Wunit] }

theorem C2_removal_witness :
    (3 : Nat) ∉ unit_uids (update_units 0 (1/60) (fun _ => 1) C2Wgame).units := by
  have h := (C2_removal 0 (1/60) (fun _ => 1) C2Wgame
    (fun n => by norm_num)
    (by simp [C2Wgame, C2Wunit, mkUnit, unit_uids, UNIT_STATS])).1
  have h2 := h C2Wunit (by simp [C2Wgame]) (by norm_num [C2Wunit, mkUnit, UNIT_STATS])
  simpa [C2Wunit, mkUnit, UNIT_STATS] using h2

end RTS
